import Mathlib

/-!
Verification development for the creature core of the infon game server
(`src/creature.h`).  The repository ships only the interface header
`creature.h`; the implementation file `creature.c` is not present.  The
data model (struct `creature_s`, the dirty-bit constants, `MAXCREATURES`)
is embedded directly from the header; every operation declared in the
header is modelled from the specification (`spec.md`), as marked in the
doc comment of each definition.
-/

/-! ## Constants from `creature.h` -/

def MAXCREATURES : Nat := 256
def CREATURE_COLORS : Nat := 16
def CREATURE_TYPES : Nat := 4
def CREATURE_DIRECTIONS : Nat := 32

def CREATURE_DIRTY_ALIVE   : Nat := 1
def CREATURE_DIRTY_POS     : Nat := 2
def CREATURE_DIRTY_TYPE    : Nat := 4
def CREATURE_DIRTY_FOOD    : Nat := 8
def CREATURE_DIRTY_HEALTH  : Nat := 16
def CREATURE_DIRTY_STATE   : Nat := 32
def CREATURE_DIRTY_TARGET  : Nat := 64
def CREATURE_DIRTY_MESSAGE : Nat := 128

def CREATURE_DIRTY_ALL  : Nat := 0xFF
def CREATURE_DIRTY_NONE : Nat := 0x00

/-- The state enum of `creature_s` (header lines 48–57). -/
inductive CState where
  | IDLE
  | WALK
  | HEAL
  | EAT
  | ATTACK
  | CONVERT
  | SPAWN
  | FEED
deriving DecidableEq, Repr

/-- The `creature_t` struct from `creature.h`.  The `player_t *` owner is
embedded as a player id (`player : Nat`); the opaque `pathnode_t *` path
handle is embedded as the queue of waypoints still to visit; the C
`char message[9]` buffer is a string of at most 8 characters. -/
structure Creature where
  x : Int
  y : Int
  dir : Nat
  type : Nat
  food : Int
  health : Int
  player : Nat
  target : Int
  path : List (Int × Int)
  convert_food : Int
  convert_type : Nat
  spawn_food : Int
  state : CState
  age_action_deltas : Int
  last_state_change : Int
  spawn_time : Int
  network_health : Int
  network_food : Int
  network_x : Int
  network_y : Int
  network_dir : Nat
  message : String
  last_msg_set : Int
  dirtymask : Nat
deriving DecidableEq, Repr

/-- The creature registry: the fixed table of `MAXCREATURES` slots, each
vacant (`none`) or holding a live creature. -/
structure World where
  slots : List (Option Creature)
deriving DecidableEq, Repr

/-! ## Attribute model

Modelled from the spec: §4.2 describes pure, deterministic per-type stat
tables (`max_health`, `max_food`, `speed`, `hitpoints`, `attack_distance`);
the concrete table values live in the missing `creature.c`, so fixed
positive values are chosen here.  The spec's color dependence carries no
constraint that any claim tests, so tables are indexed by type only. -/

def maxHealthOfType (t : Nat) : Int :=
  match t % CREATURE_TYPES with
  | 0 => 100
  | 1 => 150
  | 2 => 120
  | _ => 80

def maxFoodOfType (t : Nat) : Int :=
  match t % CREATURE_TYPES with
  | 0 => 5000
  | 1 => 8000
  | 2 => 6000
  | _ => 4000

def speedOfType (t : Nat) : Int :=
  match t % CREATURE_TYPES with
  | 0 => 400
  | 1 => 300
  | 2 => 350
  | _ => 600

def attackDistOfType (t : Nat) : Int :=
  match t % CREATURE_TYPES with
  | 0 => 2
  | 1 => 3
  | 2 => 2
  | _ => 1

def hitpointsOfType (t : Nat) : Int :=
  match t % CREATURE_TYPES with
  | 0 => 15
  | 1 => 25
  | 2 => 20
  | _ => 5

def spawnCostOfType (t : Nat) : Int :=
  match t % CREATURE_TYPES with
  | 0 => 1000
  | 1 => 2000
  | 2 => 1500
  | _ => 800

def convertCostOfType (t : Nat) : Int :=
  match t % CREATURE_TYPES with
  | 0 => 500
  | 1 => 1200
  | 2 => 900
  | _ => 700

def creature_max_health (c : Creature) : Int := maxHealthOfType c.type

def creature_max_food (c : Creature) : Int := maxFoodOfType c.type

def creature_speed (c : Creature) : Int := speedOfType c.type

def creature_attack_distance (c : Creature) : Int := attackDistOfType c.type

/-- Modelled from the spec: `hitpoints` is "current combat strength, a
function of current health/food, not a static lookup" (§4.2). -/
def creature_hitpoints (c : Creature) : Int :=
  hitpointsOfType c.type + c.health / 16

/-- Modelled from the spec: the tile/terrain collaborator queried for
forage availability at a coordinate (§6), combined with the type's
foraging rate (§4.2).  The terrain itself is external, so a fixed
deterministic tile function is used. -/
def tileFood (x y : Int) : Int :=
  if (x + y) % 2 = 0 then 100 else 0

def creature_food_on_tile (c : Creature) : Int :=
  tileFood c.x c.y

/-- Modelled from the spec: the distance metric shared by
`nearest_enemy`, `attack_distance` checks and `creature_dist`; §4.3
allows Chebyshev or Euclidean, Chebyshev on tile coordinates is used. -/
def creature_dist (a b : Creature) : Int :=
  Int.ofNat (Nat.max (a.x - b.x).natAbs ((a.y - b.y).natAbs))

/-! ## Registry access -/

/-- `creature_by_num` / `lookup(index)`: the creature at a slot, or a
not-found signal if the slot is vacant or out of range. -/
def getCreature (w : World) (i : Nat) : Option Creature :=
  (w.slots[i]?).getD none

def putCreature (w : World) (i : Nat) (c : Creature) : World :=
  { w with slots := w.slots.set i (some c) }

/-- Liveness check of a weak target reference (spec §3, §9): a target is
valid when it is a nonnegative slot index holding a live creature. -/
def targetValid (w : World) (t : Int) : Bool :=
  0 ≤ t && (getCreature w t.toNat).isSome

/-! ## Dirty-mask and vitals mutators

Modelled from the spec: "Any transition that changes food, health,
position, direction, type, state, target, or message sets the
corresponding dirty bit immediately" (§4.4), and "food and health are
always clamped to [0, type-derived max]" (§3). -/

def markDirty (c : Creature) (bits : Nat) : Creature :=
  { c with dirtymask := c.dirtymask ||| bits }

def clampI (lo hi v : Int) : Int := max lo (min v hi)

def setFood (c : Creature) (f : Int) : Creature :=
  { markDirty c CREATURE_DIRTY_FOOD with
      food := clampI 0 (creature_max_food c) f }

def setHealth (c : Creature) (h : Int) : Creature :=
  { markDirty c CREATURE_DIRTY_HEALTH with
      health := clampI 0 (creature_max_health c) h }

/-- Changing the type re-clamps both vitals against the new type's
maxima (spec §4.4 CONVERT marks TYPE+FOOD dirty). -/
def setType (c : Creature) (t : Nat) : Creature :=
  let c1 := { markDirty c CREATURE_DIRTY_TYPE with type := t % CREATURE_TYPES }
  setHealth (setFood c1 c1.food) c1.health

def setState (c : Creature) (s : CState) : Creature :=
  { markDirty c CREATURE_DIRTY_STATE with state := s, age_action_deltas := 0 }

def setTarget (c : Creature) (t : Int) : Creature :=
  { markDirty c CREATURE_DIRTY_TARGET with target := t }

def clearTarget (c : Creature) : Creature := setTarget c (-1)

def setPos (c : Creature) (x y : Int) : Creature :=
  { markDirty c CREATURE_DIRTY_POS with x := x, y := y }

/-! ## Registry lifecycle -/

/-- Index of the first vacant slot of the registry, if any. -/
def firstVacant : List (Option Creature) → Option Nat
  | [] => none
  | none :: _ => some 0
  | some _ :: rest => (firstVacant rest).map (· + 1)

/-- Modelled from the spec: the creature record `spawn` initializes —
vitals from the type attribute tables, dirty mask ALL, state IDLE, no
target, no path (§3 Lifecycle, §4.1).  The `points` argument seeds the
food reserve, clamped to the type maximum. -/
def newCreature (p : Nat) (x y : Int) (ctype : Nat) (points : Int) : Creature :=
  { x := x
    y := y
    dir := 0
    type := ctype % CREATURE_TYPES
    food := clampI 0 (maxFoodOfType ctype) points
    health := maxHealthOfType ctype
    player := p
    target := -1
    path := []
    convert_food := 0
    convert_type := 0
    spawn_food := spawnCostOfType ctype
    state := .IDLE
    age_action_deltas := 0
    last_state_change := 0
    spawn_time := 0
    network_health := 0
    network_food := 0
    network_x := 0
    network_y := 0
    network_dir := 0
    message := ""
    last_msg_set := 0
    dirtymask := CREATURE_DIRTY_ALL }

/-- Modelled from the spec: `creature_spawn` (body in the missing
`creature.c`) "allocates the first vacant slot (or fails with
CapacityExceeded if all MAXCREATURES slots are occupied); initializes
vitals using type/color attribute tables …; sets dirty mask to ALL;
returns the new creature handle" (§4.1).  The C function returns a
pointer or NULL and mutates the registry; here it returns the optional
new slot index together with the resulting registry. -/
def creature_spawn (w : World) (p : Nat) (x y : Int) (ctype : Nat)
    (points : Int) : Option Nat × World :=
  match firstVacant w.slots with
  | none => (none, w)
  | some i => (some i, putCreature w i (newCreature p x y ctype points))

/-- Modelled from the spec: `creature_kill` transitions the creature out
of the live set and every weak target reference to it is "invalidated
(cleared) automatically when the referenced creature dies" (§3).  Score
delegation to the player collaborator is outside this core (§6). -/
def killCreature (w : World) (i : Nat) : World :=
  { w with
      slots :=
        (w.slots.set i none).map (fun oc =>
          oc.map (fun c =>
            if c.target = (i : Int) then clearTarget c else c)) }

def creature_kill (w : World) (i : Nat) (_killer : Option Nat) : World :=
  killCreature w i

/-! ## Command setters

Modelled from the spec: "Command setters (`set_path`, `set_target`,
`set_state`, `set_conversion_type`, `set_message`) validate preconditions
… and mark the relevant dirty bits on success" (§4.4); rejected commands
"leave creature state unchanged on rejection (no partial mutation)" (§7).
The four `int`-returning setters mirror the header signatures (1 success,
0 rejection); `creature_set_message` is `void` in the header and never
rejects (long messages are truncated to the 8 characters that fit in
`char message[9]`). -/

/-- Modelled from the spec: the path collaborator (§6) computing a route
to the requested destination; failure is modelled as an invalid
(negative-coordinate) destination, yielding InvalidReference (§7). -/
def pathFind (_fromx _fromy tox toy : Int) : Option (List (Int × Int)) :=
  if 0 ≤ tox ∧ 0 ≤ toy then some [(tox, toy)] else none

def creature_set_path (w : World) (i : Nat) (x y : Int) : Int × World :=
  match getCreature w i with
  | none => (0, w)
  | some c =>
    match pathFind c.x c.y x y with
    | none => (0, w)
    | some p => (1, putCreature w i { c with path := p })

def creature_set_target (w : World) (i : Nat) (t : Int) : Int × World :=
  match getCreature w i with
  | none => (0, w)
  | some c =>
    if targetValid w t then (1, putCreature w i (setTarget c t))
    else (0, w)

def stateCode : CState → Int
  | .IDLE => 0
  | .WALK => 1
  | .HEAL => 2
  | .EAT => 3
  | .ATTACK => 4
  | .CONVERT => 5
  | .SPAWN => 6
  | .FEED => 7

def stateDecode (n : Int) : Option CState :=
  if n = 0 then some .IDLE
  else if n = 1 then some .WALK
  else if n = 2 then some .HEAL
  else if n = 3 then some .EAT
  else if n = 4 then some .ATTACK
  else if n = 5 then some .CONVERT
  else if n = 6 then some .SPAWN
  else if n = 7 then some .FEED
  else none

/-- Modelled from the spec: IllegalTransition — "invalid requested
states fail silently by rejecting the change, signaled by a
boolean/error return" (§4.4, §7); a request is legal when it decodes to
one of the eight enumerated states. -/
def creature_set_state (w : World) (i : Nat) (st : Int) : Int × World :=
  match getCreature w i with
  | none => (0, w)
  | some c =>
    match stateDecode st with
    | none => (0, w)
    | some s => (1, putCreature w i (setState c s))

def creature_set_conversion_type (w : World) (i : Nat) (t : Int) : Int × World :=
  match getCreature w i with
  | none => (0, w)
  | some c =>
    if 0 ≤ t ∧ t < (CREATURE_TYPES : Int) then
      (1, putCreature w i
        { c with convert_type := t.toNat
                 convert_food := convertCostOfType t.toNat })
    else (0, w)

def creature_set_message (w : World) (i : Nat) (m : String) : World :=
  match getCreature w i with
  | none => w
  | some c =>
    putCreature w i
      { markDirty c CREATURE_DIRTY_MESSAGE with message := m.take 8 }

/-! ## Network delta sync

Modelled from the spec (§4.5): the wire format of the missing
`creature.c` is unknown, so a message is a flat list of integers. -/

/-- Full-snapshot serialization of one creature: slot index followed by
the authoritative (x, y, dir, type, food, health, state) fields. -/
def serializeFull (i : Nat) (c : Creature) : List Int :=
  [Int.ofNat i, c.x, c.y, Int.ofNat c.dir, Int.ofNat c.type,
   c.food, c.health, stateCode c.state]

/-- Client-side reconstruction of a full-snapshot message: recovers the
(x, y, dir, type, food, health, state) tuple, or fails on a malformed
message. -/
def parseFull (m : List Int) :
    Option (Int × Int × Int × Int × Int × Int × CState) :=
  match m with
  | [_, x, y, dir, ty, f, h, st] =>
    (stateDecode st).map (fun s => (x, y, dir, ty, f, h, s))
  | _ => none

/-- Full snapshot of a slot-list suffix whose first slot has absolute
index `i0`: one message per live creature, dirty bits ignored. -/
def snapshotMsgs : List (Option Creature) → Nat → List (List Int)
  | [], _ => []
  | none :: rest, i0 => snapshotMsgs rest (i0 + 1)
  | some c :: rest, i0 => serializeFull i0 c :: snapshotMsgs rest (i0 + 1)

/-- Modelled from the spec: `creature_send_initial_update(client)`
"serializes the full authoritative state of every live creature
(ignoring dirty bits — full snapshot) and does NOT alter the dirty mask
or the replication shadow" (§4.5).  Returns the outbound messages for
the given client together with the (unchanged) registry. -/
def creature_send_initial_update (w : World) (_client : Nat) :
    List (List Int) × World :=
  (snapshotMsgs w.slots 0, w)

/-- The low 8 bits not selected by `mask`: the Nat counterpart of the C
`~mask` applied to an `unsigned char`. -/
def maskCompl (mask : Nat) : Nat := 255 ^^^ (mask &&& 255)

/-- Modelled from the spec: `creature_to_network(creature, dirtymask,
client)` "serializes only the fields indicated by the given mask for
that creature to that specific client's outbound stream" (§4.5),
overwrites the replication-shadow `network_*` fields for the flushed
field groups (§3) and clears the flushed bits from the creature's single
process-wide dirty mask (§5).  Returns the updated creature record and
the serialized message. -/
def creature_to_network (c : Creature) (mask : Nat) (_client : Nat) :
    Creature × List Int :=
  let msg :=
    (if mask &&& CREATURE_DIRTY_ALIVE ≠ 0 then [(1 : Int)] else [])
    ++ (if mask &&& CREATURE_DIRTY_POS ≠ 0 then
          [c.x, c.y, Int.ofNat c.dir] else [])
    ++ (if mask &&& CREATURE_DIRTY_TYPE ≠ 0 then [Int.ofNat c.type] else [])
    ++ (if mask &&& CREATURE_DIRTY_FOOD ≠ 0 then [c.food] else [])
    ++ (if mask &&& CREATURE_DIRTY_HEALTH ≠ 0 then [c.health] else [])
    ++ (if mask &&& CREATURE_DIRTY_STATE ≠ 0 then [stateCode c.state] else [])
    ++ (if mask &&& CREATURE_DIRTY_TARGET ≠ 0 then [c.target] else [])
  let c1 :=
    { c with
        network_x := if mask &&& CREATURE_DIRTY_POS ≠ 0 then c.x else c.network_x
        network_y := if mask &&& CREATURE_DIRTY_POS ≠ 0 then c.y else c.network_y
        network_dir :=
          if mask &&& CREATURE_DIRTY_POS ≠ 0 then c.dir else c.network_dir
        network_food :=
          if mask &&& CREATURE_DIRTY_FOOD ≠ 0 then c.food else c.network_food
        network_health :=
          if mask &&& CREATURE_DIRTY_HEALTH ≠ 0 then c.health
          else c.network_health
        dirtymask := c.dirtymask &&& maskCompl mask }
  (c1, msg)

/-! ## Spatial query -/

/-- Sentinel distance written through `distptr` when no enemy exists.
Modelled from the spec: "Returns not-found plus a sentinel distance when
no enemy exists" (§4.3); the concrete sentinel is unspecified. -/
def SENTINEL_DIST : Int := 999999

/-- One O(population) scan over the slot list starting at absolute index
`i0`: keeps the nearest enemy seen, preferring the lower slot index on a
distance tie (head of the list wins ties against the tail). -/
def scanNearest (ref : Creature) : List (Option Creature) → Nat → Option (Nat × Int)
  | [], _ => none
  | oc :: rest, i0 =>
    let tailRes := scanNearest ref rest (i0 + 1)
    match oc with
    | none => tailRes
    | some c =>
      if c.player ≠ ref.player then
        let d := creature_dist ref c
        match tailRes with
        | none => some (i0, d)
        | some (j, dj) => if dj < d then some (j, dj) else some (i0, d)
      else tailRes

/-- Modelled from the spec: `creature_nearest_enemy(reference, distptr)`
"scans all live creatures, filters to those whose owner differs from the
reference's owner, … returns the minimum; on a tie, returns the lowest
slot index" (§4.3).  Returns the optional enemy slot together with the
distance written through `distptr`. -/
def creature_nearest_enemy (w : World) (ref : Creature) : Option Nat × Int :=
  match scanNearest ref w.slots 0 with
  | none => (none, SENTINEL_DIST)
  | some (i, d) => (some i, d)

/-! ## State machine and per-tick update

Modelled from the spec (§4.4): the per-state transitions of the missing
`creature.c`'s update routine.  Rates and durations are fixed positive
constants (unspecified in the spec); every food/health write goes
through the clamping mutators. -/

def CONVERT_DURATION : Int := 5000
def SPAWN_DURATION : Int := 8000

def getTargetCreature (w : World) (t : Int) : Option (Nat × Creature) :=
  if 0 ≤ t then (getCreature w t.toNat).map (fun c => (t.toNat, c)) else none

/-- IDLE: "if a target or path is set, transition to WALK; creatures
with neither decay food slowly and may self-transition to EAT if
standing on a food-bearing tile and below max food." -/
def idleStep (w : World) (c : Creature) (delta : Int) : Creature :=
  if targetValid w c.target || !c.path.isEmpty then setState c .WALK
  else
    let c1 := setFood c (c.food - delta)
    if 0 < creature_food_on_tile c1 ∧ c1.food < creature_max_food c1 then
      setState c1 .EAT
    else c1

/-- WALK: "follow the path handle one step; on arrival (path exhausted)
transition based on queued intent (ATTACK if target set and in range,
… else IDLE)." -/
def walkStep (w : World) (c : Creature) (_delta : Int) : Creature :=
  match c.path with
  | [] =>
    match getTargetCreature w c.target with
    | some (_, t) =>
      if creature_dist c t ≤ creature_attack_distance c then setState c .ATTACK
      else setState c .IDLE
    | none => setState c .IDLE
  | (px, py) :: rest => { setPos c px py with path := rest }

/-- HEAL: "consumes food to restore health at a type-derived rate each
tick; reverts to IDLE when health is full or food is exhausted." -/
def healStep (c : Creature) (delta : Int) : Creature :=
  if c.food ≤ 0 then setState c .IDLE
  else if creature_max_health c ≤ c.health then setState c .IDLE
  else
    let amount := min (10 * delta) c.food
    setFood (setHealth c (c.health + amount)) (c.food - amount)

/-- EAT: "consumes food from the tile (bounded by `food_on_tile`) to
raise the creature's own food toward its max; reverts to IDLE when full
or tile exhausted." -/
def eatStep (c : Creature) (delta : Int) : Creature :=
  let avail := creature_food_on_tile c
  if avail ≤ 0 ∨ creature_max_food c ≤ c.food then setState c .IDLE
  else setFood c (c.food + min (10 * delta) avail)

/-- CONVERT: "requires food ≥ `convert_food` cost; after a fixed
duration changes the creature's `type` to `convert_type`, consumes the
cost, marks TYPE+FOOD dirty, reverts to IDLE." -/
def convertStep (c : Creature) (delta : Int) : Creature :=
  if c.food < c.convert_food then setState c .IDLE
  else
    let c1 := { c with age_action_deltas := c.age_action_deltas + delta }
    if CONVERT_DURATION ≤ c1.age_action_deltas then
      let cost := c1.convert_food
      let c2 := setType c1 c1.convert_type
      setState (setFood c2 (c2.food - cost)) .IDLE
    else c1

/-- ATTACK: "requires a live target within `attack_distance`; deals
damage each tick …; if the target leaves range, transition back to WALK
toward it or IDLE if target lost; if the target's health reaches 0,
invoke kill(target, self) and return to IDLE." -/
def attackStep (w : World) (i : Nat) (c : Creature) (delta : Int) : World :=
  match getTargetCreature w c.target with
  | none => putCreature w i (setState (clearTarget c) .IDLE)
  | some (tj, t) =>
    if creature_attack_distance c < creature_dist c t then
      putCreature w i (setState c .WALK)
    else
      let t1 := setHealth t (t.health - creature_hitpoints c * delta)
      if t1.health ≤ 0 then
        let w1 := killCreature (putCreature w tj t1) tj
        match getCreature w1 i with
        | some c2 => putCreature w1 i (setState c2 .IDLE)
        | none => w1
      else putCreature (putCreature w tj t1) i c

/-- SPAWN: "requires food ≥ `spawn_food` cost; after a fixed duration …
produces a new creature via the registry near the parent's tile,
consumes the cost, reverts to IDLE." -/
def spawnStepW (w : World) (i : Nat) (c : Creature) (delta : Int) : World :=
  if c.food < c.spawn_food then putCreature w i (setState c .IDLE)
  else
    let c1 := { c with age_action_deltas := c.age_action_deltas + delta }
    if SPAWN_DURATION ≤ c1.age_action_deltas then
      let w1 :=
        putCreature w i (setState (setFood c1 (c1.food - c1.spawn_food)) .IDLE)
      (creature_spawn w1 c.player (c.x + 1) c.y c.type 0).2
    else putCreature w i c1

/-- FEED: "transfers food from the acting creature to a target ally
(target must be friendly and alive); reverts to IDLE when either party
reaches a bound or the command is cancelled." -/
def feedStep (w : World) (i : Nat) (c : Creature) (delta : Int) : World :=
  match getTargetCreature w c.target with
  | none => putCreature w i (setState (clearTarget c) .IDLE)
  | some (tj, t) =>
    if t.player ≠ c.player then putCreature w i (setState c .IDLE)
    else if c.food ≤ 0 ∨ creature_max_food t ≤ t.food then
      putCreature w i (setState c .IDLE)
    else
      let amount := min (min (10 * delta) c.food) (creature_max_food t - t.food)
      putCreature (putCreature w tj (setFood t (t.food + amount))) i
        (setFood c (c.food - amount))

/-- The update slice of one registry slot within `creature_moveall`. -/
def stepCreature (w : World) (delta : Int) (i : Nat) : World :=
  match getCreature w i with
  | none => w
  | some c =>
    match c.state with
    | .IDLE => putCreature w i (idleStep w c delta)
    | .WALK => putCreature w i (walkStep w c delta)
    | .HEAL => putCreature w i (healStep c delta)
    | .EAT => putCreature w i (eatStep c delta)
    | .ATTACK => attackStep w i c delta
    | .CONVERT => putCreature w i (convertStep c delta)
    | .SPAWN => spawnStepW w i c delta
    | .FEED => feedStep w i c delta

/-- Modelled from the spec: `creature_moveall(delta)` "advances every
live creature by `delta` ticks" (§4.4), updating creatures in place
sequentially in slot order (§5 allows this design). -/
def creature_moveall (w : World) (delta : Int) : World :=
  (List.range w.slots.length).foldl (fun acc i => stepCreature acc delta i) w

/-! ## Invariants (spec §3) -/

/-- Per-creature invariant: vitals clamped to the type-derived maxima,
and the dirty mask fits the C `unsigned char`. -/
def CreatureInv (c : Creature) : Prop :=
  0 ≤ c.food ∧ c.food ≤ creature_max_food c ∧
  0 ≤ c.health ∧ c.health ≤ creature_max_health c ∧
  c.dirtymask < 256

instance (c : Creature) : Decidable (CreatureInv c) := by
  unfold CreatureInv; exact inferInstance

def slotInv : Option Creature → Prop
  | none => True
  | some c => CreatureInv c

instance : (oc : Option Creature) → Decidable (slotInv oc)
  | none => .isTrue trivial
  | some c => inferInstanceAs (Decidable (CreatureInv c))

def WorldInv (w : World) : Prop := ∀ oc ∈ w.slots, slotInv oc

instance (w : World) : Decidable (WorldInv w) :=
  inferInstanceAs (Decidable (∀ oc ∈ w.slots, slotInv oc))

/-- Vitals-only part of the invariant, as stated in spec §8. -/
def VitalsOk (c : Creature) : Prop :=
  0 ≤ c.food ∧ c.food ≤ creature_max_food c ∧
  0 ≤ c.health ∧ c.health ≤ creature_max_health c

/-! ## Sub-mask order -/

/-- `submask a b`: every bit of `a` is set in `b`. -/
def submask (a b : Nat) : Prop := a ||| b = b

def FoodOk (c : Creature) : Prop :=
  0 ≤ c.food ∧ c.food ≤ creature_max_food c

def HealthOk (c : Creature) : Prop :=
  0 ≤ c.health ∧ c.health ≤ creature_max_health c

/-- Mask growth between two registry snapshots: any creature alive in
both keeps all of its old dirty bits, and a creature appearing in a
previously vacant slot is a fresh spawn carrying the full mask. -/
def MaskGrow (w w' : World) : Prop :=
  ∀ i : Nat,
    (∀ c c', getCreature w i = some c → getCreature w' i = some c' →
      submask c.dirtymask c'.dirtymask) ∧
    (getCreature w i = none → ∀ c', getCreature w' i = some c' →
      c'.dirtymask = CREATURE_DIRTY_ALL)

/-- Slot `i` holds a live enemy of `ref` (different owner), spec §4.3. -/
def EnemyAt (w : World) (ref : Creature) (i : Nat) (c : Creature) : Prop :=
  getCreature w i = some c ∧ c.player ≠ ref.player

/-- Overwrite the dirty mask of the creature in slot `i`; used to state
that the full snapshot ignores dirty masks. -/
def setMaskAt (w : World) (i : Nat) (m : Nat) : World :=
  match getCreature w i with
  | none => w
  | some c => putCreature w i { c with dirtymask := m }

/-! ## Concrete data for the witness theorems -/

def sampleCreature : Creature :=
  { x := 0, y := 0, dir := 0, type := 0, food := 100, health := 50
    player := 1, target := -1, path := []
    convert_food := 0, convert_type := 0, spawn_food := 1000
    state := .IDLE, age_action_deltas := 0, last_state_change := 0
    spawn_time := 0, network_health := 0, network_food := 0
    network_x := 0, network_y := 0, network_dir := 0
    message := "", last_msg_set := 0, dirtymask := 0 }

def sampleWorld : World := ⟨[some sampleCreature, none]⟩

/-- Attacker in slot 0 (state ATTACK, target slot 1); victim in slot 1,
owned by a different player. -/
def attackerC : Creature :=
  { sampleCreature with state := .ATTACK, target := 1 }

def victimC : Creature := { sampleCreature with x := 1, player := 2 }

def attackWorld : World := ⟨[some attackerC, some victimC]⟩

/-- A creature with an empty food reserve, for the HEAL scenario. -/
def hungryC : Creature := { sampleCreature with food := 0 }

def hungryWorld : World := ⟨[some hungryC]⟩

/-- A registry with every one of the MAXCREATURES slots occupied. -/
def fullWorld : World := ⟨List.replicate MAXCREATURES (some sampleCreature)⟩

/-- Two enemies equidistant from the reference creature in slot 0. -/
def enemyA : Creature := { sampleCreature with x := 2, player := 2 }

def enemyB : Creature := { sampleCreature with x := -2, player := 2 }

def enemyWorld : World := ⟨[some sampleCreature, some enemyA, some enemyB]⟩

theorem vitalsOk_of_creatureInv {c : Creature} (h : CreatureInv c) : VitalsOk c :=
  ⟨h.1, h.2.1, h.2.2.1, h.2.2.2.1⟩

theorem maxFoodOfType_pos (t : Nat) : 0 < maxFoodOfType t := by
  unfold maxFoodOfType; split <;> norm_num

theorem maxHealthOfType_pos (t : Nat) : 0 < maxHealthOfType t := by
  unfold maxHealthOfType; split <;> norm_num

/-! ## Sub-mask order lemmas -/

theorem submask_refl (a : Nat) : submask a a := Nat.or_self a

theorem submask_trans {a b c : Nat} (h1 : submask a b) (h2 : submask b c) :
    submask a c := by
  unfold submask at *
  calc a ||| c = a ||| (b ||| c) := by rw [h2]
    _ = (a ||| b) ||| c := (Nat.or_assoc ..).symm
    _ = b ||| c := by rw [h1]
    _ = c := h2

theorem submask_or_right (a b : Nat) : submask a (a ||| b) := by
  unfold submask
  rw [← Nat.or_assoc, Nat.or_self]

theorem submask_le_255 {a : Nat} (h : a < 256) : submask a 255 := by
  unfold submask
  apply Nat.eq_of_testBit_eq
  intro i
  rw [Nat.testBit_or]
  rcases Nat.lt_or_ge i 8 with hi | hi
  · have h255 : Nat.testBit 255 i = true := by
      have he : (255 : Nat) = 2 ^ 8 - 1 := by norm_num
      rw [he, Nat.testBit_two_pow_sub_one]
      simpa using hi
    rw [h255, Bool.or_true]
  · have hlt : a < 2 ^ i := by
      have h8 : (256 : Nat) = 2 ^ 8 := by norm_num
      exact Nat.lt_of_lt_of_le (h8 ▸ h) (Nat.pow_le_pow_right (by norm_num) hi)
    rw [Nat.testBit_lt_two_pow hlt, Bool.false_or]

theorem eq_255_of_submask_255 {m : Nat} (h : submask 255 m) (hm : m < 256) :
    m = 255 := by
  have h1 : submask m 255 := submask_le_255 hm
  unfold submask at h h1
  rw [Nat.or_comm] at h1
  rw [h1] at h
  exact h.symm

theorem or_lt_256 {a b : Nat} (ha : a < 256) (hb : b < 256) : a ||| b < 256 := by
  have h8 : (256 : Nat) = 2 ^ 8 := by norm_num
  rw [h8] at ha hb ⊢
  exact Nat.or_lt_two_pow ha hb

/-! ## Mutator lemmas -/

theorem clampI_bounds {lo hi : Int} (v : Int) (h : lo ≤ hi) :
    lo ≤ clampI lo hi v ∧ clampI lo hi v ≤ hi := by
  unfold clampI
  exact ⟨le_max_left _ _, max_le h (min_le_right _ _)⟩

@[simp] theorem markDirty_food (c : Creature) (b : Nat) :
    (markDirty c b).food = c.food := rfl
@[simp] theorem markDirty_health (c : Creature) (b : Nat) :
    (markDirty c b).health = c.health := rfl
@[simp] theorem markDirty_type (c : Creature) (b : Nat) :
    (markDirty c b).type = c.type := rfl
@[simp] theorem markDirty_state (c : Creature) (b : Nat) :
    (markDirty c b).state = c.state := rfl
@[simp] theorem markDirty_target (c : Creature) (b : Nat) :
    (markDirty c b).target = c.target := rfl
@[simp] theorem markDirty_dirty (c : Creature) (b : Nat) :
    (markDirty c b).dirtymask = c.dirtymask ||| b := rfl

@[simp] theorem setFood_food (c : Creature) (f : Int) :
    (setFood c f).food = clampI 0 (creature_max_food c) f := rfl
@[simp] theorem setFood_health (c : Creature) (f : Int) :
    (setFood c f).health = c.health := rfl
@[simp] theorem setFood_type (c : Creature) (f : Int) :
    (setFood c f).type = c.type := rfl
@[simp] theorem setFood_state (c : Creature) (f : Int) :
    (setFood c f).state = c.state := rfl
@[simp] theorem setFood_target (c : Creature) (f : Int) :
    (setFood c f).target = c.target := rfl
@[simp] theorem setFood_dirty (c : Creature) (f : Int) :
    (setFood c f).dirtymask = c.dirtymask ||| CREATURE_DIRTY_FOOD := rfl

@[simp] theorem setHealth_health (c : Creature) (h : Int) :
    (setHealth c h).health = clampI 0 (creature_max_health c) h := rfl
@[simp] theorem setHealth_food (c : Creature) (h : Int) :
    (setHealth c h).food = c.food := rfl
@[simp] theorem setHealth_type (c : Creature) (h : Int) :
    (setHealth c h).type = c.type := rfl
@[simp] theorem setHealth_state (c : Creature) (h : Int) :
    (setHealth c h).state = c.state := rfl
@[simp] theorem setHealth_target (c : Creature) (h : Int) :
    (setHealth c h).target = c.target := rfl
@[simp] theorem setHealth_dirty (c : Creature) (h : Int) :
    (setHealth c h).dirtymask = c.dirtymask ||| CREATURE_DIRTY_HEALTH := rfl

@[simp] theorem setState_state (c : Creature) (s : CState) :
    (setState c s).state = s := rfl
@[simp] theorem setState_food (c : Creature) (s : CState) :
    (setState c s).food = c.food := rfl
@[simp] theorem setState_health (c : Creature) (s : CState) :
    (setState c s).health = c.health := rfl
@[simp] theorem setState_type (c : Creature) (s : CState) :
    (setState c s).type = c.type := rfl
@[simp] theorem setState_target (c : Creature) (s : CState) :
    (setState c s).target = c.target := rfl
@[simp] theorem setState_dirty (c : Creature) (s : CState) :
    (setState c s).dirtymask = c.dirtymask ||| CREATURE_DIRTY_STATE := rfl

@[simp] theorem setTarget_target (c : Creature) (t : Int) :
    (setTarget c t).target = t := rfl
@[simp] theorem setTarget_food (c : Creature) (t : Int) :
    (setTarget c t).food = c.food := rfl
@[simp] theorem setTarget_health (c : Creature) (t : Int) :
    (setTarget c t).health = c.health := rfl
@[simp] theorem setTarget_type (c : Creature) (t : Int) :
    (setTarget c t).type = c.type := rfl
@[simp] theorem setTarget_state (c : Creature) (t : Int) :
    (setTarget c t).state = c.state := rfl
@[simp] theorem setTarget_dirty (c : Creature) (t : Int) :
    (setTarget c t).dirtymask = c.dirtymask ||| CREATURE_DIRTY_TARGET := rfl

@[simp] theorem setPos_food (c : Creature) (x y : Int) :
    (setPos c x y).food = c.food := rfl
@[simp] theorem setPos_health (c : Creature) (x y : Int) :
    (setPos c x y).health = c.health := rfl
@[simp] theorem setPos_type (c : Creature) (x y : Int) :
    (setPos c x y).type = c.type := rfl
@[simp] theorem setPos_state (c : Creature) (x y : Int) :
    (setPos c x y).state = c.state := rfl
@[simp] theorem setPos_target (c : Creature) (x y : Int) :
    (setPos c x y).target = c.target := rfl
@[simp] theorem setPos_dirty (c : Creature) (x y : Int) :
    (setPos c x y).dirtymask = c.dirtymask ||| CREATURE_DIRTY_POS := rfl

theorem foodOk_setFood (c : Creature) (f : Int) : FoodOk (setFood c f) := by
  unfold FoodOk
  rw [setFood_food]
  have : creature_max_food (setFood c f) = creature_max_food c := rfl
  rw [this]
  exact clampI_bounds f (le_of_lt (maxFoodOfType_pos c.type))

theorem healthOk_setHealth (c : Creature) (h : Int) : HealthOk (setHealth c h) := by
  unfold HealthOk
  rw [setHealth_health]
  have : creature_max_health (setHealth c h) = creature_max_health c := rfl
  rw [this]
  exact clampI_bounds h (le_of_lt (maxHealthOfType_pos c.type))

theorem creatureInv_markDirty {c : Creature} (h : CreatureInv c) {b : Nat}
    (hb : b < 256) : CreatureInv (markDirty c b) :=
  ⟨h.1, h.2.1, h.2.2.1, h.2.2.2.1, or_lt_256 h.2.2.2.2 hb⟩

theorem creatureInv_setFood {c : Creature} (h : CreatureInv c) (f : Int) :
    CreatureInv (setFood c f) :=
  ⟨(foodOk_setFood c f).1, (foodOk_setFood c f).2, h.2.2.1, h.2.2.2.1,
   or_lt_256 h.2.2.2.2 (by decide)⟩

theorem creatureInv_setHealth {c : Creature} (h : CreatureInv c) (v : Int) :
    CreatureInv (setHealth c v) :=
  ⟨h.1, h.2.1, (healthOk_setHealth c v).1, (healthOk_setHealth c v).2,
   or_lt_256 h.2.2.2.2 (by decide)⟩

theorem creatureInv_setState {c : Creature} (h : CreatureInv c) (s : CState) :
    CreatureInv (setState c s) :=
  ⟨h.1, h.2.1, h.2.2.1, h.2.2.2.1, or_lt_256 h.2.2.2.2 (by decide)⟩

theorem creatureInv_setTarget {c : Creature} (h : CreatureInv c) (t : Int) :
    CreatureInv (setTarget c t) :=
  ⟨h.1, h.2.1, h.2.2.1, h.2.2.2.1, or_lt_256 h.2.2.2.2 (by decide)⟩

theorem creatureInv_clearTarget {c : Creature} (h : CreatureInv c) :
    CreatureInv (clearTarget c) := creatureInv_setTarget h _

theorem creatureInv_setPos {c : Creature} (h : CreatureInv c) (x y : Int) :
    CreatureInv (setPos c x y) :=
  ⟨h.1, h.2.1, h.2.2.1, h.2.2.2.1, or_lt_256 h.2.2.2.2 (by decide)⟩

theorem creatureInv_setType {c : Creature} (h : CreatureInv c) (t : Nat) :
    CreatureInv (setType c t) := by
  have h5 := h.2.2.2.2
  unfold setType
  refine ⟨?_, ?_, (healthOk_setHealth _ _).1, (healthOk_setHealth _ _).2, ?_⟩
  · rw [setHealth_food]
    exact (foodOk_setFood _ _).1
  · rw [setHealth_food]
    exact (foodOk_setFood _ _).2
  · rw [setHealth_dirty, setFood_dirty, markDirty_dirty]
    exact or_lt_256 (or_lt_256 (or_lt_256 h5 (by decide)) (by decide)) (by decide)

theorem creatureInv_ageBump {c : Creature} (h : CreatureInv c) (a : Int) :
    CreatureInv { c with age_action_deltas := a } :=
  ⟨h.1, h.2.1, h.2.2.1, h.2.2.2.1, h.2.2.2.2⟩

theorem creatureInv_pathSet {c : Creature} (h : CreatureInv c)
    (p : List (Int × Int)) : CreatureInv { c with path := p } :=
  ⟨h.1, h.2.1, h.2.2.1, h.2.2.2.1, h.2.2.2.2⟩

theorem creatureInv_idleStep {w : World} {c : Creature} (h : CreatureInv c)
    (delta : Int) : CreatureInv (idleStep w c delta) := by
  unfold idleStep
  dsimp only
  split
  · exact creatureInv_setState h _
  · split
    · exact creatureInv_setState (creatureInv_setFood h _) _
    · exact creatureInv_setFood h _

theorem creatureInv_walkStep {w : World} {c : Creature} (h : CreatureInv c)
    (delta : Int) : CreatureInv (walkStep w c delta) := by
  unfold walkStep
  split
  · split
    · split
      · exact creatureInv_setState h _
      · exact creatureInv_setState h _
    · exact creatureInv_setState h _
  · exact creatureInv_pathSet (creatureInv_setPos h _ _) _

theorem creatureInv_healStep {c : Creature} (h : CreatureInv c) (delta : Int) :
    CreatureInv (healStep c delta) := by
  unfold healStep
  split
  · exact creatureInv_setState h _
  · split
    · exact creatureInv_setState h _
    · exact creatureInv_setFood (creatureInv_setHealth h _) _

theorem creatureInv_eatStep {c : Creature} (h : CreatureInv c) (delta : Int) :
    CreatureInv (eatStep c delta) := by
  unfold eatStep
  dsimp only
  split
  · exact creatureInv_setState h _
  · exact creatureInv_setFood h _

theorem creatureInv_convertStep {c : Creature} (h : CreatureInv c) (delta : Int) :
    CreatureInv (convertStep c delta) := by
  unfold convertStep
  dsimp only
  split
  · exact creatureInv_setState h _
  · split
    · exact creatureInv_setState
        (creatureInv_setFood (creatureInv_setType (creatureInv_ageBump h _) _) _) _
    · exact creatureInv_ageBump h _

/-! ## Registry lemmas -/

theorem maxFoodOfType_mod (t : Nat) :
    maxFoodOfType (t % CREATURE_TYPES) = maxFoodOfType t := by
  unfold maxFoodOfType CREATURE_TYPES
  have h : t % 4 % 4 = t % 4 := by omega
  rw [h]

theorem maxHealthOfType_mod (t : Nat) :
    maxHealthOfType (t % CREATURE_TYPES) = maxHealthOfType t := by
  unfold maxHealthOfType CREATURE_TYPES
  have h : t % 4 % 4 = t % 4 := by omega
  rw [h]

theorem creatureInv_newCreature (p : Nat) (x y : Int) (ctype : Nat)
    (points : Int) : CreatureInv (newCreature p x y ctype points) := by
  have hmf := maxFoodOfType_mod ctype
  have hmh := maxHealthOfType_mod ctype
  have hf : 0 ≤ clampI 0 (maxFoodOfType ctype) points ∧
      clampI 0 (maxFoodOfType ctype) points ≤ maxFoodOfType ctype :=
    clampI_bounds points (le_of_lt (maxFoodOfType_pos ctype))
  refine ⟨hf.1, ?_, le_of_lt (maxHealthOfType_pos ctype), ?_, ?_⟩
  · show clampI 0 (maxFoodOfType ctype) points ≤ maxFoodOfType (ctype % CREATURE_TYPES)
    rw [hmf]
    exact hf.2
  · show maxHealthOfType ctype ≤ maxHealthOfType (ctype % CREATURE_TYPES)
    rw [hmh]
  · show CREATURE_DIRTY_ALL < 256
    decide

theorem getCreature_eq_some_iff {w : World} {i : Nat} {c : Creature} :
    getCreature w i = some c ↔ w.slots[i]? = some (some c) := by
  unfold getCreature
  cases h : w.slots[i]? with
  | none => simp
  | some oc => cases oc <;> simp

theorem worldInv_get {w : World} (hw : WorldInv w) {i : Nat} {c : Creature}
    (h : getCreature w i = some c) : CreatureInv c :=
  hw _ (List.getElem?_mem (getCreature_eq_some_iff.mp h))

theorem worldInv_put {w : World} (hw : WorldInv w) {c : Creature}
    (hc : CreatureInv c) (i : Nat) : WorldInv (putCreature w i c) := by
  intro oc hoc
  rcases List.mem_or_eq_of_mem_set hoc with h | h
  · exact hw _ h
  · subst h
    exact hc

theorem worldInv_kill {w : World} (hw : WorldInv w) (i : Nat) :
    WorldInv (killCreature w i) := by
  intro oc hoc
  rcases List.mem_map.mp hoc with ⟨oc0, hmem, rfl⟩
  rcases List.mem_or_eq_of_mem_set hmem with h | h
  · cases oc0 with
    | none => trivial
    | some c =>
      have hc : CreatureInv c := hw _ h
      show slotInv (some (if c.target = (i : Int) then clearTarget c else c))
      by_cases ht : c.target = (i : Int)
      · simp only [ht, if_pos rfl]
        exact creatureInv_clearTarget hc
      · simp only [if_neg ht]
        exact hc
  · subst h
    trivial

theorem worldInv_spawn {w : World} (hw : WorldInv w) (p : Nat) (x y : Int)
    (ctype : Nat) (points : Int) :
    WorldInv (creature_spawn w p x y ctype points).2 := by
  unfold creature_spawn
  split
  · exact hw
  · exact worldInv_put hw (creatureInv_newCreature ..) _

theorem getTargetCreature_some {w : World} {t : Int} {tj : Nat} {tc : Creature}
    (h : getTargetCreature w t = some (tj, tc)) :
    getCreature w tj = some tc ∧ 0 ≤ t ∧ tj = t.toNat := by
  unfold getTargetCreature at h
  split at h
  · cases hg : getCreature w t.toNat with
    | none => rw [hg] at h; simp at h
    | some c =>
      rw [hg] at h
      simp at h
      obtain ⟨rfl, rfl⟩ := h
      exact ⟨hg, by assumption, rfl⟩
  · simp at h

theorem putCreature_oob {w : World} {i : Nat} (h : w.slots.length ≤ i)
    (c : Creature) : putCreature w i c = w := by
  unfold putCreature
  rw [List.set_eq_of_length_le h]

theorem getCreature_put_self {w : World} {i : Nat} (h : i < w.slots.length)
    (c : Creature) : getCreature (putCreature w i c) i = some c := by
  unfold getCreature putCreature
  simp [List.getElem?_set, h]

theorem getCreature_put_other {w : World} {i j : Nat} (h : i ≠ j)
    (c : Creature) : getCreature (putCreature w i c) j = getCreature w j := by
  unfold getCreature putCreature
  simp [List.getElem?_set, h]

theorem getCreature_kill_self {w : World} {i : Nat} :
    getCreature (killCreature w i) i = none := by
  unfold getCreature killCreature
  rcases Nat.lt_or_ge i w.slots.length with h | h
  · simp [List.getElem?_set, h]
  · have hlen :
        ((w.slots.set i none).map (fun oc =>
          oc.map (fun c =>
            if c.target = (i : Int) then clearTarget c else c))).length ≤ i := by
      rw [List.length_map, List.length_set]
      exact h
    rw [List.getElem?_eq_none hlen]
    rfl

theorem getCreature_kill_other {w : World} {i j : Nat} (h : i ≠ j) :
    getCreature (killCreature w i) j =
      (getCreature w j).map
        (fun c => if c.target = (i : Int) then clearTarget c else c) := by
  unfold getCreature killCreature
  simp only [List.getElem?_map, List.getElem?_set, if_neg h]
  cases w.slots[j]? with
  | none => rfl
  | some oc => cases oc <;> rfl

theorem length_putCreature (w : World) (i : Nat) (c : Creature) :
    (putCreature w i c).slots.length = w.slots.length := by
  unfold putCreature
  exact List.length_set ..

theorem length_killCreature (w : World) (i : Nat) :
    (killCreature w i).slots.length = w.slots.length := by
  unfold killCreature
  rw [List.length_map, List.length_set]

/-! ## Invariant preservation through the per-tick update -/

theorem worldInv_attackStep {w : World} (hw : WorldInv w) {i : Nat}
    {c : Creature} (hc : CreatureInv c) (delta : Int) :
    WorldInv (attackStep w i c delta) := by
  unfold attackStep
  split
  · exact worldInv_put hw (creatureInv_setState (creatureInv_clearTarget hc) _) _
  · rename_i p tj t htc
    have ht : CreatureInv t := worldInv_get hw (getTargetCreature_some htc).1
    split
    · exact worldInv_put hw (creatureInv_setState hc _) _
    · dsimp only
      have hw1 : WorldInv (killCreature
          (putCreature w tj
            (setHealth t (t.health - creature_hitpoints c * delta))) tj) :=
        worldInv_kill (worldInv_put hw (creatureInv_setHealth ht _) tj) tj
      split
      · split
        · rename_i c2 hc2
          exact worldInv_put hw1 (creatureInv_setState (worldInv_get hw1 hc2) _) _
        · exact hw1
      · exact worldInv_put (worldInv_put hw (creatureInv_setHealth ht _) tj) hc i

theorem worldInv_spawnStepW {w : World} (hw : WorldInv w) {i : Nat}
    {c : Creature} (hc : CreatureInv c) (delta : Int) :
    WorldInv (spawnStepW w i c delta) := by
  unfold spawnStepW
  split
  · exact worldInv_put hw (creatureInv_setState hc _) _
  · dsimp only
    split
    · exact worldInv_spawn
        (worldInv_put hw
          (creatureInv_setState
            (creatureInv_setFood (creatureInv_ageBump hc _) _) _) i) _ _ _ _ _
    · exact worldInv_put hw (creatureInv_ageBump hc _) _

theorem worldInv_feedStep {w : World} (hw : WorldInv w) {i : Nat}
    {c : Creature} (hc : CreatureInv c) (delta : Int) :
    WorldInv (feedStep w i c delta) := by
  unfold feedStep
  split
  · exact worldInv_put hw (creatureInv_setState (creatureInv_clearTarget hc) _) _
  · rename_i p tj t htc
    have ht : CreatureInv t := worldInv_get hw (getTargetCreature_some htc).1
    split
    · exact worldInv_put hw (creatureInv_setState hc _) _
    · split
      · exact worldInv_put hw (creatureInv_setState hc _) _
      · dsimp only
        exact worldInv_put (worldInv_put hw (creatureInv_setFood ht _) tj)
          (creatureInv_setFood hc _) i

theorem worldInv_stepCreature {w : World} (hw : WorldInv w) (delta : Int)
    (i : Nat) : WorldInv (stepCreature w delta i) := by
  unfold stepCreature
  split
  · exact hw
  · rename_i c hgc
    have hc : CreatureInv c := worldInv_get hw hgc
    split
    · exact worldInv_put hw (creatureInv_idleStep hc delta) i
    · exact worldInv_put hw (creatureInv_walkStep hc delta) i
    · exact worldInv_put hw (creatureInv_healStep hc delta) i
    · exact worldInv_put hw (creatureInv_eatStep hc delta) i
    · exact worldInv_attackStep hw hc delta
    · exact worldInv_put hw (creatureInv_convertStep hc delta) i
    · exact worldInv_spawnStepW hw hc delta
    · exact worldInv_feedStep hw hc delta

theorem foldl_preserve {α : Type} {P : World → Prop} {f : World → α → World}
    (hf : ∀ w a, P w → P (f w a)) :
    ∀ (l : List α) (w : World), P w → P (l.foldl f w)
  | [], _, h => h
  | a :: l, w, h => foldl_preserve hf l (f w a) (hf w a h)

theorem worldInv_moveall {w : World} (hw : WorldInv w) (delta : Int) :
    WorldInv (creature_moveall w delta) := by
  unfold creature_moveall
  exact foldl_preserve (P := WorldInv)
    (f := fun acc i => stepCreature acc delta i)
    (fun w' i hw' => worldInv_stepCreature hw' delta i)
    (List.range w.slots.length) w hw

/-! ## Per-slot update characterization -/

theorem stepCreature_eq {w : World} {delta : Int} {i : Nat} {c : Creature}
    (hg : getCreature w i = some c) :
    stepCreature w delta i =
      (match c.state with
       | .IDLE => putCreature w i (idleStep w c delta)
       | .WALK => putCreature w i (walkStep w c delta)
       | .HEAL => putCreature w i (healStep c delta)
       | .EAT => putCreature w i (eatStep c delta)
       | .ATTACK => attackStep w i c delta
       | .CONVERT => putCreature w i (convertStep c delta)
       | .SPAWN => spawnStepW w i c delta
       | .FEED => feedStep w i c delta) := by
  unfold stepCreature
  rw [hg]

theorem stepCreature_none {w : World} {delta : Int} {i : Nat}
    (hg : getCreature w i = none) : stepCreature w delta i = w := by
  unfold stepCreature
  rw [hg]

/-! ## Claim C1 -/

/-- C1: after any call to `creature_moveall(delta)`, every live
creature satisfies `0 ≤ food ≤ creature_max_food` and
`0 ≤ health ≤ creature_max_health`; and the operations mutating food or
health (`setFood`, `setHealth`) preserve these clamps. -/
theorem C1_moveall_vitals_clamped (w : World) (delta : Int) (hw : WorldInv w) :
    (∀ i c, getCreature (creature_moveall w delta) i = some c → VitalsOk c) ∧
    (∀ c, VitalsOk c → ∀ v : Int,
      VitalsOk (setFood c v) ∧ VitalsOk (setHealth c v)) := by
  constructor
  · intro i c hc
    exact vitalsOk_of_creatureInv (worldInv_get (worldInv_moveall hw delta) hc)
  · intro c hv v
    constructor
    · exact ⟨(foodOk_setFood c v).1, (foodOk_setFood c v).2, hv.2.2.1, hv.2.2.2⟩
    · exact ⟨hv.1, hv.2.1, (healthOk_setHealth c v).1, (healthOk_setHealth c v).2⟩

/-- Witness for C1 at a concrete registry and delta. -/
theorem C1_moveall_vitals_clamped_witness :
    WorldInv sampleWorld ∧
    ((∀ i c, getCreature (creature_moveall sampleWorld 3) i = some c →
        VitalsOk c) ∧
     (∀ c, VitalsOk c → ∀ v : Int,
        VitalsOk (setFood c v) ∧ VitalsOk (setHealth c v))) :=
  ⟨by decide, C1_moveall_vitals_clamped sampleWorld 3 (by decide)⟩

/-! ## Claim C9 -/

theorem healStep_no_food {c : Creature} (hf : c.food ≤ 0) (delta : Int) :
    healStep c delta = setState c .IDLE := by
  unfold healStep
  rw [if_pos hf]

/-- C9: a creature with food = 0 that is commanded into HEAL (via
`creature_set_state`, which accepts the request) reverts to IDLE within
the same tick's update slice of that creature, with its health field
unchanged by the aborted HEAL. -/
theorem C9_heal_without_food_reverts (w : World) (i : Nat) (c : Creature)
    (delta : Int) (hc : getCreature w i = some c) (hf : c.food = 0)
    (hlen : i < w.slots.length) :
    (creature_set_state w i 2).1 = 1 ∧
    getCreature (creature_set_state w i 2).2 i = some (setState c .HEAL) ∧
    (setState c .HEAL).state = .HEAL ∧
    ∃ c', getCreature
        (stepCreature (creature_set_state w i 2).2 delta i) i = some c' ∧
      c'.state = .IDLE ∧ c'.health = c.health := by
  have hset : creature_set_state w i 2 = (1, putCreature w i (setState c .HEAL)) := by
    unfold creature_set_state
    rw [hc]
    rfl
  rw [hset]
  have hget : getCreature (putCreature w i (setState c CState.HEAL)) i =
      some (setState c CState.HEAL) := getCreature_put_self hlen _
  refine ⟨rfl, hget, rfl, setState (setState c .HEAL) .IDLE, ?_, rfl, rfl⟩
  rw [stepCreature_eq hget]
  show getCreature
      (putCreature (putCreature w i (setState c CState.HEAL)) i
        (healStep (setState c CState.HEAL) delta)) i = _
  have hfood : (setState c CState.HEAL).food ≤ 0 := by
    rw [setState_food, hf]
  rw [healStep_no_food hfood]
  exact getCreature_put_self (by rw [length_putCreature]; exact hlen) _

/-- Witness for C9: a creature with empty food reserve in slot 0. -/
theorem C9_heal_without_food_reverts_witness :
    getCreature hungryWorld 0 = some hungryC ∧ hungryC.food = 0 ∧
    ((creature_set_state hungryWorld 0 2).1 = 1 ∧
     getCreature (creature_set_state hungryWorld 0 2).2 0 =
       some (setState hungryC .HEAL) ∧
     (setState hungryC .HEAL).state = .HEAL ∧
     ∃ c', getCreature
         (stepCreature (creature_set_state hungryWorld 0 2).2 5 0) 0 = some c' ∧
       c'.state = .IDLE ∧ c'.health = hungryC.health) :=
  ⟨by decide, by decide,
   C9_heal_without_food_reverts hungryWorld 0 hungryC 5 (by decide) (by decide)
     (by decide)⟩

/-! ## Claim C3 -/

theorem firstVacant_eq_none {l : List (Option Creature)}
    (h : ∀ oc ∈ l, oc.isSome) : firstVacant l = none := by
  induction l with
  | nil => rfl
  | cons oc rest ih =>
    cases oc with
    | none =>
      have := h none (List.mem_cons_self ..)
      simp at this
    | some c =>
      unfold firstVacant
      rw [ih (fun oc hm => h oc (List.mem_cons_of_mem _ hm))]
      rfl

theorem firstVacant_spec {l : List (Option Creature)} {i : Nat}
    (h : firstVacant l = some i) :
    l[i]? = some none ∧ ∀ j, j < i → ∃ c, l[j]? = some (some c) := by
  induction l generalizing i with
  | nil => simp [firstVacant] at h
  | cons oc rest ih =>
    cases oc with
    | none =>
      unfold firstVacant at h
      injection h with h
      subst h
      exact ⟨by simp, fun j hj => absurd hj (Nat.not_lt_zero j)⟩
    | some c =>
      unfold firstVacant at h
      cases hr : firstVacant rest with
      | none =>
        rw [hr] at h
        simp at h
      | some k =>
        rw [hr] at h
        simp only [Option.map_some'] at h
        injection h with h
        subst h
        obtain ⟨h1, h2⟩ := ih hr
        refine ⟨by simpa using h1, fun j hj => ?_⟩
        cases j with
        | zero => exact ⟨c, by simp⟩
        | succ j' =>
          obtain ⟨c', hc'⟩ := h2 j' (by omega)
          exact ⟨c', by simpa using hc'⟩

/-- C3: `creature_spawn` fails, leaving every slot untouched, exactly
when all MAXCREATURES slots are occupied; otherwise it fills the first
vacant slot with a fresh creature whose vitals come from the type
tables, whose dirty mask is ALL, and returns that slot's handle. -/
theorem C3_spawn_first_vacant_or_fail (w : World) (p : Nat) (x y : Int)
    (ctype : Nat) (points : Int) :
    (w.slots.length = MAXCREATURES → (∀ oc ∈ w.slots, oc.isSome) →
      creature_spawn w p x y ctype points = (none, w)) ∧
    (∀ i, firstVacant w.slots = some i →
      (creature_spawn w p x y ctype points).1 = some i ∧
      getCreature w i = none ∧ i < w.slots.length ∧
      (∀ j, j < i → getCreature w j ≠ none) ∧
      getCreature (creature_spawn w p x y ctype points).2 i =
        some (newCreature p x y ctype points) ∧
      (∀ j, j ≠ i →
        getCreature (creature_spawn w p x y ctype points).2 j =
          getCreature w j) ∧
      (newCreature p x y ctype points).dirtymask = CREATURE_DIRTY_ALL ∧
      (newCreature p x y ctype points).health = maxHealthOfType ctype ∧
      (newCreature p x y ctype points).state = .IDLE) := by
  constructor
  · intro _ hfull
    unfold creature_spawn
    rw [firstVacant_eq_none hfull]
  · intro i hv
    obtain ⟨h1, h2⟩ := firstVacant_spec hv
    have hlen : i < w.slots.length := by
      rcases List.getElem?_eq_some_iff.mp h1 with ⟨hl, _⟩
      exact hl
    have hspawn : creature_spawn w p x y ctype points =
        (some i, putCreature w i (newCreature p x y ctype points)) := by
      unfold creature_spawn
      rw [hv]
    rw [hspawn]
    refine ⟨rfl, ?_, hlen, ?_, getCreature_put_self hlen _, ?_, rfl, rfl, rfl⟩
    · unfold getCreature
      rw [h1]
      rfl
    · intro j hj
      obtain ⟨c', hc'⟩ := h2 j hj
      unfold getCreature
      rw [hc']
      simp
    · intro j hj
      exact getCreature_put_other (fun he => hj he.symm) _

set_option maxRecDepth 8192 in
/-- Witness for C3: the full-registry failure at a 256-slot registry and
the first-vacant success at a registry whose slot 1 is vacant. -/
theorem C3_spawn_first_vacant_or_fail_witness :
    (fullWorld.slots.length = MAXCREATURES ∧
     (∀ oc ∈ fullWorld.slots, oc.isSome) ∧
     creature_spawn fullWorld 1 0 0 0 0 = (none, fullWorld)) ∧
    (firstVacant sampleWorld.slots = some 1 ∧
     (creature_spawn sampleWorld 1 0 0 0 0).1 = some 1) :=
  ⟨⟨by decide, by decide,
    (C3_spawn_first_vacant_or_fail fullWorld 1 0 0 0 0).1 (by decide) (by decide)⟩,
   ⟨by decide,
    ((C3_spawn_first_vacant_or_fail sampleWorld 1 0 0 0 0).2 1 (by decide)).1⟩⟩

/-! ## Claims C7 and C8 -/

theorem stateDecode_stateCode (s : CState) : stateDecode (stateCode s) = some s := by
  cases s <;> rfl

theorem snapshotMsgs_mem (i0 : Nat) :
    ∀ {l : List (Option Creature)} {k : Nat} {c : Creature},
      l[k]? = some (some c) →
      serializeFull (i0 + k) c ∈ snapshotMsgs l i0 := by
  intro l
  induction l generalizing i0 with
  | nil => intro k c h; simp at h
  | cons oc rest ih =>
    intro k c h
    cases k with
    | zero =>
      simp only [List.getElem?_cons_zero] at h
      injection h with h
      subst h
      unfold snapshotMsgs
      exact List.mem_cons_self ..
    | succ k' =>
      simp only [List.getElem?_cons_succ] at h
      have hmem := ih (i0 + 1) h
      have harith : i0 + 1 + k' = i0 + (k' + 1) := by omega
      rw [harith] at hmem
      cases oc with
      | none => exact hmem
      | some c0 => exact List.mem_cons_of_mem _ hmem

theorem snapshotMsgs_set_mask :
    ∀ (l : List (Option Creature)) (i0 k : Nat) (c : Creature) (m : Nat),
      l[k]? = some (some c) →
      snapshotMsgs (l.set k (some { c with dirtymask := m })) i0 =
        snapshotMsgs l i0 := by
  intro l
  induction l with
  | nil => intro i0 k c m h; simp at h
  | cons oc rest ih =>
    intro i0 k c m h
    cases k with
    | zero =>
      simp only [List.getElem?_cons_zero] at h
      injection h with h
      subst h
      rfl
    | succ k' =>
      simp only [List.getElem?_cons_succ] at h
      show snapshotMsgs (oc :: rest.set k' _) i0 = _
      cases oc with
      | none =>
        show snapshotMsgs (rest.set k' _) (i0 + 1) = snapshotMsgs rest (i0 + 1)
        exact ih (i0 + 1) k' c m h
      | some c0 =>
        show serializeFull i0 c0 :: snapshotMsgs (rest.set k' _) (i0 + 1) = _
        rw [ih (i0 + 1) k' c m h]
        rfl

/-- C7: serializing a creature's full state inside
`creature_send_initial_update` and parsing the message client-side
reproduces exactly the authoritative (x, y, dir, type, food, health,
state) tuple. -/
theorem C7_initial_update_roundtrip (w : World) (cl : Nat) (i : Nat)
    (c : Creature) (h : getCreature w i = some c) :
    serializeFull i c ∈ (creature_send_initial_update w cl).1 ∧
    parseFull (serializeFull i c) =
      some (c.x, c.y, (c.dir : Int), (c.type : Int), c.food, c.health,
        c.state) := by
  constructor
  · have hk := getCreature_eq_some_iff.mp h
    have hmem := snapshotMsgs_mem 0 hk
    rw [Nat.zero_add] at hmem
    exact hmem
  · show (stateDecode (stateCode c.state)).map _ = _
    rw [stateDecode_stateCode]
    rfl

/-- Witness for C7 at the sample registry. -/
theorem C7_initial_update_roundtrip_witness :
    getCreature sampleWorld 0 = some sampleCreature ∧
    (serializeFull 0 sampleCreature ∈
      (creature_send_initial_update sampleWorld 9).1 ∧
     parseFull (serializeFull 0 sampleCreature) =
      some (sampleCreature.x, sampleCreature.y, (sampleCreature.dir : Int),
        (sampleCreature.type : Int), sampleCreature.food,
        sampleCreature.health, sampleCreature.state)) :=
  ⟨by decide, C7_initial_update_roundtrip sampleWorld 9 0 sampleCreature (by decide)⟩

/-- C8: `creature_send_initial_update` emits the full state of every
live creature while ignoring the dirty masks, and returns the registry
unchanged — no dirty mask and no replication-shadow field is altered. -/
theorem C8_initial_update_full_and_pure (w : World) (cl : Nat) :
    (creature_send_initial_update w cl).2 = w ∧
    (∀ i, getCreature (creature_send_initial_update w cl).2 i =
      getCreature w i) ∧
    (∀ i c, getCreature w i = some c →
      serializeFull i c ∈ (creature_send_initial_update w cl).1) ∧
    (∀ i m c, getCreature w i = some c →
      (creature_send_initial_update (setMaskAt w i m) cl).1 =
        (creature_send_initial_update w cl).1) := by
  refine ⟨rfl, fun i => rfl, ?_, ?_⟩
  · intro i c h
    have hmem := snapshotMsgs_mem 0 (getCreature_eq_some_iff.mp h)
    rw [Nat.zero_add] at hmem
    exact hmem
  · intro i m c h
    show snapshotMsgs (setMaskAt w i m).slots 0 = snapshotMsgs w.slots 0
    unfold setMaskAt
    rw [h]
    exact snapshotMsgs_set_mask w.slots 0 i c m (getCreature_eq_some_iff.mp h)

/-- Witness for C8 at the sample registry, fully instantiated. -/
theorem C8_initial_update_full_and_pure_witness :
    (creature_send_initial_update sampleWorld 4).2 = sampleWorld ∧
    getCreature sampleWorld 0 = some sampleCreature ∧
    serializeFull 0 sampleCreature ∈
      (creature_send_initial_update sampleWorld 4).1 ∧
    (creature_send_initial_update (setMaskAt sampleWorld 0 7) 4).1 =
      (creature_send_initial_update sampleWorld 4).1 :=
  ⟨(C8_initial_update_full_and_pure sampleWorld 4).1, by decide,
   (C8_initial_update_full_and_pure sampleWorld 4).2.2.1 0 sampleCreature
     (by decide),
   (C8_initial_update_full_and_pure sampleWorld 4).2.2.2 0 7 sampleCreature
     (by decide)⟩

/-! ## Claim C10 -/

/-- C10: the creature record carries exactly one replication shadow and
one dirty mask shared by all clients — the record produced by
`creature_to_network` (and the message) is independent of which client
is flushed, and a full flush overwrites the single shadow with the
authoritative values and clears the single mask, so it changes the delta
baseline observed by every other client. -/
theorem C10_single_shared_shadow (c : Creature) (mask cl1 cl2 : Nat) :
    (creature_to_network c mask cl1).1 = (creature_to_network c mask cl2).1 ∧
    (creature_to_network c mask cl1).2 = (creature_to_network c mask cl2).2 ∧
    (creature_to_network c CREATURE_DIRTY_ALL cl1).1.network_x = c.x ∧
    (creature_to_network c CREATURE_DIRTY_ALL cl1).1.network_y = c.y ∧
    (creature_to_network c CREATURE_DIRTY_ALL cl1).1.network_dir = c.dir ∧
    (creature_to_network c CREATURE_DIRTY_ALL cl1).1.network_food = c.food ∧
    (creature_to_network c CREATURE_DIRTY_ALL cl1).1.network_health =
      c.health ∧
    (creature_to_network c CREATURE_DIRTY_ALL cl1).1.dirtymask =
      CREATURE_DIRTY_NONE := by
  refine ⟨rfl, rfl, rfl, rfl, rfl, rfl, rfl, ?_⟩
  show c.dirtymask &&& maskCompl CREATURE_DIRTY_ALL = CREATURE_DIRTY_NONE
  have h : maskCompl CREATURE_DIRTY_ALL = 0 := rfl
  rw [h, Nat.and_zero]
  rfl

/-! ## Claim C6 -/

theorem or_and_self_mask (a b : Nat) : (a ||| b) &&& b = b := by
  apply Nat.eq_of_testBit_eq
  intro i
  simp only [Nat.testBit_and, Nat.testBit_or]
  cases a.testBit i <;> cases b.testBit i <;> rfl

/-- C6: every command setter validates its preconditions, returns a
failure status and leaves the registry entirely unchanged on rejection,
and marks its dirty bit on success (`creature_set_message` is `void` in
the header: it never rejects, and marks MESSAGE on every call). -/
theorem C6_setters_validate_and_mark (w : World) (i : Nat)
    (x y t ct st : Int) (msg : String) :
    ((creature_set_path w i x y).1 = 0 → (creature_set_path w i x y).2 = w) ∧
    ((creature_set_target w i t).1 = 0 →
      (creature_set_target w i t).2 = w) ∧
    (∀ c, getCreature w i = some c → targetValid w t = false →
      creature_set_target w i t = (0, w)) ∧
    ((creature_set_target w i t).1 ≠ 0 →
      ∀ c', getCreature (creature_set_target w i t).2 i = some c' →
        c'.dirtymask &&& CREATURE_DIRTY_TARGET = CREATURE_DIRTY_TARGET) ∧
    ((creature_set_state w i st).1 = 0 → (creature_set_state w i st).2 = w) ∧
    (∀ c, getCreature w i = some c → stateDecode st = none →
      creature_set_state w i st = (0, w)) ∧
    ((creature_set_state w i st).1 ≠ 0 →
      ∀ c', getCreature (creature_set_state w i st).2 i = some c' →
        c'.dirtymask &&& CREATURE_DIRTY_STATE = CREATURE_DIRTY_STATE) ∧
    ((creature_set_conversion_type w i ct).1 = 0 →
      (creature_set_conversion_type w i ct).2 = w) ∧
    (∀ c, getCreature w i = some c →
      ∀ c', getCreature (creature_set_message w i msg) i = some c' →
        c'.dirtymask &&& CREATURE_DIRTY_MESSAGE = CREATURE_DIRTY_MESSAGE) := by
  refine ⟨?_, ?_, ?_, ?_, ?_, ?_, ?_, ?_, ?_⟩
  · unfold creature_set_path
    split
    · intro _; rfl
    · split
      · intro _; rfl
      · intro h; simp at h
  · unfold creature_set_target
    split
    · intro _; rfl
    · split
      · intro h; simp at h
      · intro _; rfl
  · intro c hc hv
    unfold creature_set_target
    rw [hc, hv]
    rfl
  · intro hs c' hc'
    unfold creature_set_target at hs hc'
    rcases hg : getCreature w i with _ | c
    · rw [hg] at hs; simp at hs
    · rw [hg] at hs hc'
      dsimp only at hs hc'
      by_cases hv : targetValid w t = true
      · rw [if_pos hv] at hc'
        have hilen : i < w.slots.length := by
          rcases List.getElem?_eq_some_iff.mp (getCreature_eq_some_iff.mp hg)
            with ⟨hl, _⟩
          exact hl
        rw [getCreature_put_self hilen] at hc'
        injection hc' with hc'
        subst hc'
        rw [setTarget_dirty]
        exact or_and_self_mask ..
      · rw [if_neg hv] at hs
        simp at hs
  · unfold creature_set_state
    split
    · intro _; rfl
    · split
      · intro _; rfl
      · intro h; simp at h
  · intro c hc hd
    unfold creature_set_state
    rw [hc, hd]
  · intro hs c' hc'
    unfold creature_set_state at hs hc'
    rcases hg : getCreature w i with _ | c
    · rw [hg] at hs; simp at hs
    · rw [hg] at hs hc'
      rcases hd : stateDecode st with _ | s
      · rw [hd] at hs
        simp at hs
      · rw [hd] at hc'
        dsimp only at hc'
        have hilen : i < w.slots.length := by
          rcases List.getElem?_eq_some_iff.mp (getCreature_eq_some_iff.mp hg)
            with ⟨hl, _⟩
          exact hl
        rw [getCreature_put_self hilen] at hc'
        injection hc' with hc'
        subst hc'
        rw [setState_dirty]
        exact or_and_self_mask ..
  · unfold creature_set_conversion_type
    split
    · intro _; rfl
    · split
      · intro h; simp at h
      · intro _; rfl
  · intro c hc c' hc'
    unfold creature_set_message at hc'
    rw [hc] at hc'
    have hilen : i < w.slots.length := by
      rcases List.getElem?_eq_some_iff.mp (getCreature_eq_some_iff.mp hc)
        with ⟨hl, _⟩
      exact hl
    rw [getCreature_put_self hilen] at hc'
    injection hc' with hc'
    subst hc'
    rw [markDirty_dirty]
    exact or_and_self_mask ..

/-- Witness for C6: a rejected `set_target` leaves the registry
unchanged, and an accepted one marks the TARGET dirty bit. -/
theorem C6_setters_validate_and_mark_witness :
    targetValid sampleWorld 5 = false ∧
    creature_set_target sampleWorld 0 5 = (0, sampleWorld) ∧
    (creature_set_target sampleWorld 0 0).1 ≠ 0 ∧
    getCreature (creature_set_target sampleWorld 0 0).2 0 =
      some (setTarget sampleCreature 0) ∧
    (setTarget sampleCreature 0).dirtymask &&& CREATURE_DIRTY_TARGET =
      CREATURE_DIRTY_TARGET :=
  ⟨by decide,
   (C6_setters_validate_and_mark sampleWorld 0 0 0 5 0 0 "").2.2.1
     sampleCreature (by decide) (by decide),
   by decide, by decide,
   (C6_setters_validate_and_mark sampleWorld 0 0 0 0 0 0 "").2.2.2.1
     (by decide) (setTarget sampleCreature 0) (by decide)⟩

/-! ## Claim C4 -/

theorem scanNearest_spec (ref : Creature) :
    ∀ (l : List (Option Creature)) (i0 : Nat),
      (scanNearest ref l i0 = none ↔
        ∀ (k : Nat) (c : Creature),
          l[k]? = some (some c) → c.player = ref.player) ∧
      (∀ (j : Nat) (d : Int), scanNearest ref l i0 = some (j, d) →
        ∃ (k : Nat) (c : Creature), j = i0 + k ∧ l[k]? = some (some c) ∧
          c.player ≠ ref.player ∧ d = creature_dist ref c ∧
          ∀ (k' : Nat) (c' : Creature),
            l[k']? = some (some c') → c'.player ≠ ref.player →
            d ≤ creature_dist ref c' ∧
            (creature_dist ref c' = d → j ≤ i0 + k')) := by
  intro l
  induction l with
  | nil =>
    intro i0
    constructor
    · constructor
      · intro _ k c h
        simp at h
      · intro _
        rfl
    · intro j d h
      simp [scanNearest] at h
  | cons oc rest ih =>
    intro i0
    obtain ⟨ih1, ih2⟩ := ih (i0 + 1)
    cases oc with
    | none =>
      have hred : scanNearest ref (none :: rest) i0 =
          scanNearest ref rest (i0 + 1) := rfl
      constructor
      · rw [hred, ih1]
        constructor
        · intro h k c hk
          cases k with
          | zero => simp at hk
          | succ k' => exact h k' c (by simpa using hk)
        · intro h k c hk
          exact h (k + 1) c (by simpa using hk)
      · intro j d hjd
        rw [hred] at hjd
        obtain ⟨k, c, hj, hk, hp, hd, hmin⟩ := ih2 j d hjd
        refine ⟨k + 1, c, by omega, by simpa using hk, hp, hd, ?_⟩
        intro k' c' hk' hp'
        cases k' with
        | zero => simp at hk'
        | succ k'' =>
          have hm := hmin k'' c' (by simpa using hk') hp'
          exact ⟨hm.1, fun ht => by have := hm.2 ht; omega⟩
    | some c =>
      by_cases hp : c.player = ref.player
      · have hred : scanNearest ref (some c :: rest) i0 =
            scanNearest ref rest (i0 + 1) := by
          simp [scanNearest, hp]
        constructor
        · rw [hred, ih1]
          constructor
          · intro h k c0 hk
            cases k with
            | zero =>
              simp only [List.getElem?_cons_zero] at hk
              injection hk with hk
              injection hk with hk
              subst hk
              exact hp
            | succ k' => exact h k' c0 (by simpa using hk)
          · intro h k c0 hk
            exact h (k + 1) c0 (by simpa using hk)
        · intro j d hjd
          rw [hred] at hjd
          obtain ⟨k, c0, hj, hk, hp0, hd, hmin⟩ := ih2 j d hjd
          refine ⟨k + 1, c0, by omega, by simpa using hk, hp0, hd, ?_⟩
          intro k' c' hk' hp'
          cases k' with
          | zero =>
            simp only [List.getElem?_cons_zero] at hk'
            injection hk' with hk'
            injection hk' with hk'
            subst hk'
            exact absurd hp hp'
          | succ k'' =>
            have hm := hmin k'' c' (by simpa using hk') hp'
            exact ⟨hm.1, fun ht => by have := hm.2 ht; omega⟩
      · cases htail : scanNearest ref rest (i0 + 1) with
        | none =>
          have hnone := ih1.mp htail
          have hred : scanNearest ref (some c :: rest) i0 =
              some (i0, creature_dist ref c) := by
            simp [scanNearest, htail, hp]
          constructor
          · rw [hred]
            constructor
            · intro h
              simp at h
            · intro h
              exact absurd (h 0 c (by simp)) hp
          · intro j d hjd
            rw [hred] at hjd
            injection hjd with hjd
            injection hjd with hj hd
            subst hj
            subst hd
            refine ⟨0, c, by omega, by simp, hp, rfl, ?_⟩
            intro k' c' hk' hp'
            cases k' with
            | zero =>
              simp only [List.getElem?_cons_zero] at hk'
              injection hk' with hk'
              injection hk' with hk'
              subst hk'
              exact ⟨le_refl _, fun _ => by omega⟩
            | succ k'' =>
              exact absurd (hnone k'' c' (by simpa using hk')) hp'
        | some pr =>
          obtain ⟨jt, dt⟩ := pr
          obtain ⟨k, c0, hj, hk, hp0, hd, hmin⟩ :=
            ih2 jt dt htail
          by_cases hlt : dt < creature_dist ref c
          · have hred : scanNearest ref (some c :: rest) i0 =
                some (jt, dt) := by
              simp [scanNearest, htail, hp, hlt]
            constructor
            · rw [hred]
              constructor
              · intro h
                simp at h
              · intro h
                exact absurd (h 0 c (by simp)) hp
            · intro j d hjd
              rw [hred] at hjd
              injection hjd with hjd
              injection hjd with hj' hd'
              subst hj'
              subst hd'
              refine ⟨k + 1, c0, by omega, by simpa using hk, hp0, hd, ?_⟩
              intro k' c' hk' hp'
              cases k' with
              | zero =>
                simp only [List.getElem?_cons_zero] at hk'
                injection hk' with hk'
                injection hk' with hk'
                subst hk'
                refine ⟨le_of_lt hlt, fun ht => absurd ht (by omega)⟩
              | succ k'' =>
                have hm := hmin k'' c' (by simpa using hk') hp'
                exact ⟨hm.1, fun ht => by have := hm.2 ht; omega⟩
          · have hred : scanNearest ref (some c :: rest) i0 =
                some (i0, creature_dist ref c) := by
              simp [scanNearest, htail, hp, hlt]
            constructor
            · rw [hred]
              constructor
              · intro h
                simp at h
              · intro h
                exact absurd (h 0 c (by simp)) hp
            · intro j d hjd
              rw [hred] at hjd
              injection hjd with hjd
              injection hjd with hj' hd'
              subst hj'
              subst hd'
              refine ⟨0, c, by omega, by simp, hp, rfl, ?_⟩
              intro k' c' hk' hp'
              cases k' with
              | zero =>
                simp only [List.getElem?_cons_zero] at hk'
                injection hk' with hk'
                injection hk' with hk'
                subst hk'
                exact ⟨le_refl _, fun _ => by omega⟩
              | succ k'' =>
                have hm := hmin k'' c' (by simpa using hk') hp'
                constructor
                · calc creature_dist ref c ≤ dt := by omega
                    _ ≤ creature_dist ref c' := hm.1
                · intro _
                  omega

/-- C4: `creature_nearest_enemy` returns, among all live creatures with
a different owner, one at minimum `creature_dist` from the reference,
preferring the lowest slot index on a distance tie; with no enemy it
returns not-found with the sentinel distance; and as a pure function it
is deterministic across repeated calls on the same population. -/
theorem C4_nearest_enemy_spec (w : World) (ref : Creature) :
    ((∀ (i : Nat) (c : Creature), EnemyAt w ref i c → False) →
      creature_nearest_enemy w ref = (none, SENTINEL_DIST)) ∧
    ((∃ (i : Nat) (c : Creature), EnemyAt w ref i c) →
      ∃ (i : Nat) (d : Int), creature_nearest_enemy w ref = (some i, d)) ∧
    (∀ (i : Nat) (d : Int), creature_nearest_enemy w ref = (some i, d) →
      ∃ c : Creature, EnemyAt w ref i c ∧ d = creature_dist ref c ∧
        ∀ (j : Nat) (cj : Creature), EnemyAt w ref j cj →
          d ≤ creature_dist ref cj ∧
          (creature_dist ref cj = d → i ≤ j)) ∧
    creature_nearest_enemy w ref = creature_nearest_enemy w ref := by
  obtain ⟨hs1, hs2⟩ := scanNearest_spec ref w.slots 0
  refine ⟨?_, ?_, ?_, rfl⟩
  · intro hno
    unfold creature_nearest_enemy
    rw [hs1.mpr ?_]
    intro k c hk
    by_contra hne
    exact hno k c ⟨getCreature_eq_some_iff.mpr hk, hne⟩
  · rintro ⟨i, c, hg, hp⟩
    unfold creature_nearest_enemy
    cases hscan : scanNearest ref w.slots 0 with
    | none => exact absurd (hs1.mp hscan i c (getCreature_eq_some_iff.mp hg)) hp
    | some pr =>
      obtain ⟨j0, d0⟩ := pr
      exact ⟨j0, d0, rfl⟩
  · intro i d hid
    unfold creature_nearest_enemy at hid
    cases hscan : scanNearest ref w.slots 0 with
    | none =>
      rw [hscan] at hid
      simp at hid
    | some pr =>
      obtain ⟨j0, d0⟩ := pr
      rw [hscan] at hid
      injection hid with hid1 hid2
      injection hid1 with hid1
      subst hid1
      subst hid2
      obtain ⟨k, c, hj, hk, hp, hd, hmin⟩ := hs2 j0 d0 hscan
      rw [Nat.zero_add] at hj
      subst hj
      refine ⟨c, ⟨getCreature_eq_some_iff.mpr hk, hp⟩, hd, ?_⟩
      intro j cj hcj
      have hm := hmin j cj (getCreature_eq_some_iff.mp hcj.1) hcj.2
      exact ⟨hm.1, fun ht => by have := hm.2 ht; omega⟩

/-- Witness for C4 at a population with two equidistant enemies: the
lower slot index wins the tie. -/
theorem C4_nearest_enemy_spec_witness :
    (∃ (i : Nat) (c : Creature), EnemyAt enemyWorld sampleCreature i c) ∧
    (∃ (i : Nat) (d : Int),
      creature_nearest_enemy enemyWorld sampleCreature = (some i, d)) ∧
    creature_nearest_enemy enemyWorld sampleCreature = (some 1, 2) ∧
    creature_dist sampleCreature enemyA =
      creature_dist sampleCreature enemyB :=
  ⟨⟨1, enemyA, by decide, by decide⟩,
   (C4_nearest_enemy_spec enemyWorld sampleCreature).2.1
     ⟨1, enemyA, by decide, by decide⟩,
   by decide, by decide⟩

/-! ## Claim C2: dirty-mask growth lemmas -/

theorem submask_dirty_markDirty (c : Creature) (b : Nat) :
    submask c.dirtymask (markDirty c b).dirtymask := by
  rw [markDirty_dirty]
  exact submask_or_right ..

theorem submask_dirty_setFood (c : Creature) (f : Int) :
    submask c.dirtymask (setFood c f).dirtymask := by
  rw [setFood_dirty]
  exact submask_or_right ..

theorem submask_dirty_setHealth (c : Creature) (h : Int) :
    submask c.dirtymask (setHealth c h).dirtymask := by
  rw [setHealth_dirty]
  exact submask_or_right ..

theorem submask_dirty_setState (c : Creature) (s : CState) :
    submask c.dirtymask (setState c s).dirtymask := by
  rw [setState_dirty]
  exact submask_or_right ..

theorem submask_dirty_setTarget (c : Creature) (t : Int) :
    submask c.dirtymask (setTarget c t).dirtymask := by
  rw [setTarget_dirty]
  exact submask_or_right ..

theorem submask_dirty_setPos (c : Creature) (x y : Int) :
    submask c.dirtymask (setPos c x y).dirtymask := by
  rw [setPos_dirty]
  exact submask_or_right ..

theorem submask_dirty_setType (c : Creature) (t : Nat) :
    submask c.dirtymask (setType c t).dirtymask := by
  unfold setType
  dsimp only
  rw [setHealth_dirty, setFood_dirty, markDirty_dirty]
  exact submask_trans (submask_or_right ..)
    (submask_trans (submask_or_right ..) (submask_or_right ..))

theorem submask_dirty_idleStep (w : World) (c : Creature) (delta : Int) :
    submask c.dirtymask (idleStep w c delta).dirtymask := by
  unfold idleStep
  dsimp only
  split
  · exact submask_dirty_setState ..
  · split
    · rw [setState_dirty, setFood_dirty]
      exact submask_trans (submask_or_right ..) (submask_or_right ..)
    · exact submask_dirty_setFood ..

theorem submask_loor3 {a b : Nat} (h : submask a b) (x y : Nat) :
    submask a ((b ||| x) ||| y) :=
  submask_trans h (submask_trans (submask_or_right b x)
    (submask_or_right (b ||| x) y))

theorem submask_dirty_walkStep (w : World) (c : Creature) (delta : Int) :
    submask c.dirtymask (walkStep w c delta).dirtymask := by
  unfold walkStep
  split
  · split
    · split
      · exact submask_dirty_setState ..
      · exact submask_dirty_setState ..
    · exact submask_dirty_setState ..
  · rename_i l0 px py rest heq
    show submask c.dirtymask (setPos c px py).dirtymask
    exact submask_dirty_setPos c px py

theorem submask_dirty_healStep (c : Creature) (delta : Int) :
    submask c.dirtymask (healStep c delta).dirtymask := by
  unfold healStep
  split
  · exact submask_dirty_setState ..
  · split
    · exact submask_dirty_setState ..
    · rw [setFood_dirty, setHealth_dirty]
      exact submask_trans (submask_or_right ..) (submask_or_right ..)

theorem submask_dirty_eatStep (c : Creature) (delta : Int) :
    submask c.dirtymask (eatStep c delta).dirtymask := by
  unfold eatStep
  dsimp only
  split
  · exact submask_dirty_setState ..
  · exact submask_dirty_setFood ..

theorem submask_dirty_convertStep (c : Creature) (delta : Int) :
    submask c.dirtymask (convertStep c delta).dirtymask := by
  unfold convertStep
  dsimp only
  split
  · exact submask_dirty_setState ..
  · split
    · rw [setState_dirty, setFood_dirty]
      apply submask_loor3
      exact submask_dirty_setType
        { c with age_action_deltas := c.age_action_deltas + delta }
        c.convert_type
    · exact submask_refl _

theorem maskGrow_refl (w : World) : MaskGrow w w := by
  intro i
  constructor
  · intro c c' h h'
    rw [h] at h'
    injection h' with h'
    subst h'
    exact submask_refl _
  · intro hn c' h'
    rw [hn] at h'
    exact Option.noConfusion h'

theorem maskGrow_trans {w1 w2 w3 : World} (hw1 : WorldInv w1)
    (hw3 : WorldInv w3) (g12 : MaskGrow w1 w2) (g23 : MaskGrow w2 w3) :
    MaskGrow w1 w3 := by
  intro i
  obtain ⟨a12, b12⟩ := g12 i
  obtain ⟨a23, b23⟩ := g23 i
  constructor
  · intro c c'' h1 h3
    cases h2 : getCreature w2 i with
    | some c1 => exact submask_trans (a12 c c1 h1 h2) (a23 c1 c'' h2 h3)
    | none =>
      have h255 := b23 h2 c'' h3
      have hc : CreatureInv c := worldInv_get hw1 h1
      rw [h255]
      exact submask_le_255 hc.2.2.2.2
  · intro h1 c'' h3
    cases h2 : getCreature w2 i with
    | some c1 =>
      have h255 := b12 h1 c1 h2
      have hsub := a23 c1 c'' h2 h3
      have hc'' : CreatureInv c'' := worldInv_get hw3 h3
      rw [h255] at hsub
      exact eq_255_of_submask_255 hsub hc''.2.2.2.2
    | none => exact b23 h2 c'' h3

theorem maskGrow_put_derived {w : World} {i : Nat} {c c' : Creature}
    (hg : getCreature w i = some c)
    (hsub : submask c.dirtymask c'.dirtymask) :
    MaskGrow w (putCreature w i c') := by
  have hlen : i < w.slots.length := by
    rcases List.getElem?_eq_some_iff.mp (getCreature_eq_some_iff.mp hg)
      with ⟨hl, _⟩
    exact hl
  intro j
  by_cases hij : i = j
  · subst hij
    constructor
    · intro c0 c1 h0 h1
      rw [hg] at h0
      injection h0 with h0
      subst h0
      rw [getCreature_put_self hlen] at h1
      injection h1 with h1
      subst h1
      exact hsub
    · intro hn
      rw [hg] at hn
      exact Option.noConfusion hn
  · constructor
    · intro c0 c1 h0 h1
      rw [getCreature_put_other hij, h0] at h1
      injection h1 with h1
      subst h1
      exact submask_refl _
    · intro hn c1 h1
      rw [getCreature_put_other hij, hn] at h1
      exact Option.noConfusion h1

theorem maskGrow_put_fresh {w : World} {v : Nat} {c' : Creature}
    (hv : getCreature w v = none)
    (hmask : c'.dirtymask = CREATURE_DIRTY_ALL) :
    MaskGrow w (putCreature w v c') := by
  intro j
  by_cases hvj : v = j
  · subst hvj
    constructor
    · intro c0 c1 h0 _
      rw [hv] at h0
      exact Option.noConfusion h0
    · intro _ c1 h1
      rcases Nat.lt_or_ge v w.slots.length with hlen | hlen
      · rw [getCreature_put_self hlen] at h1
        injection h1 with h1
        subst h1
        exact hmask
      · rw [putCreature_oob hlen] at h1
        rw [hv] at h1
        exact Option.noConfusion h1
  · constructor
    · intro c0 c1 h0 h1
      rw [getCreature_put_other hvj, h0] at h1
      injection h1 with h1
      subst h1
      exact submask_refl _
    · intro hn c1 h1
      rw [getCreature_put_other hvj, hn] at h1
      exact Option.noConfusion h1

theorem maskGrow_kill (w : World) (i : Nat) : MaskGrow w (killCreature w i) := by
  intro j
  by_cases hij : i = j
  · subst hij
    constructor
    · intro c0 c1 h0 h1
      rw [getCreature_kill_self] at h1
      exact Option.noConfusion h1
    · intro hn c1 h1
      rw [getCreature_kill_self] at h1
      exact Option.noConfusion h1
  · constructor
    · intro c0 c1 h0 h1
      rw [getCreature_kill_other hij, h0] at h1
      simp only [Option.map_some'] at h1
      injection h1 with h1
      subst h1
      by_cases ht : c0.target = (i : Int)
      · rw [if_pos ht]
        exact submask_dirty_setTarget ..
      · rw [if_neg ht]
        exact submask_refl _
    · intro hn c1 h1
      rw [getCreature_kill_other hij, hn] at h1
      exact Option.noConfusion h1

theorem maskGrow_spawn (w : World) (p : Nat) (x y : Int) (ctype : Nat)
    (points : Int) : MaskGrow w (creature_spawn w p x y ctype points).2 := by
  unfold creature_spawn
  split
  · exact maskGrow_refl w
  · rename_i i hv
    refine maskGrow_put_fresh ?_ rfl
    unfold getCreature
    rw [(firstVacant_spec hv).1]
    rfl

theorem maskGrow_put_put {w : World} {tj i : Nat} {t t1 c c' : Creature}
    (hgt : getCreature w tj = some t)
    (hsubt : submask t.dirtymask t1.dirtymask)
    (hgc : getCreature w i = some c)
    (hsubc : submask c.dirtymask c'.dirtymask) :
    MaskGrow w (putCreature (putCreature w tj t1) i c') := by
  have hlent : tj < w.slots.length := by
    rcases List.getElem?_eq_some_iff.mp (getCreature_eq_some_iff.mp hgt)
      with ⟨hl, _⟩
    exact hl
  have hleni : i < w.slots.length := by
    rcases List.getElem?_eq_some_iff.mp (getCreature_eq_some_iff.mp hgc)
      with ⟨hl, _⟩
    exact hl
  intro j
  by_cases hji : i = j
  · subst hji
    constructor
    · intro c0 c1 h0 h1
      rw [hgc] at h0
      injection h0 with h0
      subst h0
      rw [getCreature_put_self (by rw [length_putCreature]; exact hleni)] at h1
      injection h1 with h1
      subst h1
      exact hsubc
    · intro hn
      rw [hgc] at hn
      exact Option.noConfusion hn
  · by_cases hjt : tj = j
    · subst hjt
      constructor
      · intro c0 c1 h0 h1
        rw [hgt] at h0
        injection h0 with h0
        subst h0
        rw [getCreature_put_other hji, getCreature_put_self hlent] at h1
        injection h1 with h1
        subst h1
        exact hsubt
      · intro hn
        rw [hgt] at hn
        exact Option.noConfusion hn
    · constructor
      · intro c0 c1 h0 h1
        rw [getCreature_put_other hji, getCreature_put_other hjt, h0] at h1
        injection h1 with h1
        subst h1
        exact submask_refl _
      · intro hn c1 h1
        rw [getCreature_put_other hji, getCreature_put_other hjt, hn] at h1
        exact Option.noConfusion h1

theorem maskGrow_attackStep {w : World} (hw : WorldInv w) {i : Nat}
    {c : Creature} (hgc : getCreature w i = some c) (delta : Int) :
    MaskGrow w (attackStep w i c delta) := by
  unfold attackStep
  split
  · exact maskGrow_put_derived hgc
      (submask_trans (submask_dirty_setTarget ..) (submask_dirty_setState ..))
  · rename_i p tj t htc
    have hgt : getCreature w tj = some t := (getTargetCreature_some htc).1
    split
    · exact maskGrow_put_derived hgc (submask_dirty_setState ..)
    · dsimp only
      split
      · have hw1 : WorldInv (putCreature w tj
            (setHealth t (t.health - creature_hitpoints c * delta))) :=
          worldInv_put hw (creatureInv_setHealth (worldInv_get hw hgt) _) tj
        have hw2 : WorldInv (killCreature (putCreature w tj
            (setHealth t (t.health - creature_hitpoints c * delta))) tj) :=
          worldInv_kill hw1 tj
        have g12 : MaskGrow w (killCreature (putCreature w tj
            (setHealth t (t.health - creature_hitpoints c * delta))) tj) :=
          maskGrow_trans hw hw2
            (maskGrow_put_derived hgt (submask_dirty_setHealth ..))
            (maskGrow_kill _ tj)
        split
        · rename_i c2 hc2
          exact maskGrow_trans hw
            (worldInv_put hw2 (creatureInv_setState (worldInv_get hw2 hc2) _) i)
            g12 (maskGrow_put_derived hc2 (submask_dirty_setState ..))
        · exact g12
      · exact maskGrow_put_put hgt (submask_dirty_setHealth ..) hgc
          (submask_refl _)

theorem maskGrow_spawnStepW {w : World} (hw : WorldInv w) {i : Nat}
    {c : Creature} (hgc : getCreature w i = some c) (delta : Int) :
    MaskGrow w (spawnStepW w i c delta) := by
  unfold spawnStepW
  split
  · exact maskGrow_put_derived hgc (submask_dirty_setState ..)
  · dsimp only
    split
    · have hsub : submask c.dirtymask
          (setState (setFood
            { c with age_action_deltas := c.age_action_deltas + delta }
            ({ c with age_action_deltas := c.age_action_deltas + delta }.food -
              { c with age_action_deltas := c.age_action_deltas + delta }.spawn_food))
            CState.IDLE).dirtymask := by
        rw [setState_dirty, setFood_dirty]
        exact submask_loor3 (submask_refl _) _ _
      have hw1 : WorldInv (putCreature w i
          (setState (setFood
            { c with age_action_deltas := c.age_action_deltas + delta }
            ({ c with age_action_deltas := c.age_action_deltas + delta }.food -
              { c with age_action_deltas := c.age_action_deltas + delta }.spawn_food))
            CState.IDLE)) :=
        worldInv_put hw
          (creatureInv_setState
            (creatureInv_setFood
              (creatureInv_ageBump (worldInv_get hw hgc) _) _) _) i
      refine maskGrow_trans hw ?_ (maskGrow_put_derived hgc hsub)
        (maskGrow_spawn _ c.player (c.x + 1) c.y c.type 0)
      exact worldInv_spawn hw1 _ _ _ _ _
    · exact maskGrow_put_derived hgc (submask_refl _)

theorem maskGrow_feedStep {w : World} (_hw : WorldInv w) {i : Nat}
    {c : Creature} (hgc : getCreature w i = some c) (delta : Int) :
    MaskGrow w (feedStep w i c delta) := by
  unfold feedStep
  split
  · exact maskGrow_put_derived hgc
      (submask_trans (submask_dirty_setTarget ..) (submask_dirty_setState ..))
  · rename_i p tj t htc
    have hgt : getCreature w tj = some t := (getTargetCreature_some htc).1
    split
    · exact maskGrow_put_derived hgc (submask_dirty_setState ..)
    · split
      · exact maskGrow_put_derived hgc (submask_dirty_setState ..)
      · dsimp only
        exact maskGrow_put_put hgt (submask_dirty_setFood ..) hgc
          (submask_dirty_setFood ..)

theorem maskGrow_stepCreature {w : World} (hw : WorldInv w) (delta : Int)
    (i : Nat) : MaskGrow w (stepCreature w delta i) := by
  unfold stepCreature
  split
  · exact maskGrow_refl w
  · rename_i c hgc
    split
    · exact maskGrow_put_derived hgc (submask_dirty_idleStep ..)
    · exact maskGrow_put_derived hgc (submask_dirty_walkStep ..)
    · exact maskGrow_put_derived hgc (submask_dirty_healStep ..)
    · exact maskGrow_put_derived hgc (submask_dirty_eatStep ..)
    · exact maskGrow_attackStep hw hgc delta
    · exact maskGrow_put_derived hgc (submask_dirty_convertStep ..)
    · exact maskGrow_spawnStepW hw hgc delta
    · exact maskGrow_feedStep hw hgc delta

theorem maskGrow_stepFoldl (delta : Int) :
    ∀ (l : List Nat) (w : World), WorldInv w →
      MaskGrow w (l.foldl (fun acc i => stepCreature acc delta i) w)
  | [], w, _ => maskGrow_refl w
  | a :: l, w, hw => by
    have hw1 : WorldInv (stepCreature w delta a) :=
      worldInv_stepCreature hw delta a
    have hwf : WorldInv
        (l.foldl (fun acc i => stepCreature acc delta i)
          (stepCreature w delta a)) :=
      foldl_preserve (P := WorldInv)
        (f := fun acc i => stepCreature acc delta i)
        (fun w' j hw' => worldInv_stepCreature hw' delta j) l _ hw1
    exact maskGrow_trans hw hwf (maskGrow_stepCreature hw delta a)
      (maskGrow_stepFoldl delta l (stepCreature w delta a) hw1)

theorem maskGrow_moveall {w : World} (hw : WorldInv w) (delta : Int) :
    MaskGrow w (creature_moveall w delta) := by
  unfold creature_moveall
  exact maskGrow_stepFoldl delta (List.range w.slots.length) w hw

theorem maskGrow_set_path (w : World) (i : Nat) (x y : Int) :
    MaskGrow w (creature_set_path w i x y).2 := by
  unfold creature_set_path
  split
  · exact maskGrow_refl w
  · rename_i c hgc
    split
    · exact maskGrow_refl w
    · exact maskGrow_put_derived hgc (submask_refl _)

theorem maskGrow_set_target (w : World) (i : Nat) (t : Int) :
    MaskGrow w (creature_set_target w i t).2 := by
  unfold creature_set_target
  split
  · exact maskGrow_refl w
  · rename_i c hgc
    split
    · exact maskGrow_put_derived hgc (submask_dirty_setTarget ..)
    · exact maskGrow_refl w

theorem maskGrow_set_state (w : World) (i : Nat) (st : Int) :
    MaskGrow w (creature_set_state w i st).2 := by
  unfold creature_set_state
  split
  · exact maskGrow_refl w
  · rename_i c hgc
    split
    · exact maskGrow_refl w
    · exact maskGrow_put_derived hgc (submask_dirty_setState ..)

theorem maskGrow_set_conversion_type (w : World) (i : Nat) (t : Int) :
    MaskGrow w (creature_set_conversion_type w i t).2 := by
  unfold creature_set_conversion_type
  split
  · exact maskGrow_refl w
  · rename_i c hgc
    split
    · exact maskGrow_put_derived hgc (submask_refl _)
    · exact maskGrow_refl w

theorem maskGrow_set_message (w : World) (i : Nat) (msg : String) :
    MaskGrow w (creature_set_message w i msg) := by
  unfold creature_set_message
  split
  · exact maskGrow_refl w
  · rename_i c hgc
    exact maskGrow_put_derived hgc (submask_or_right ..)

/-- C2: between flush points, every mutating operation of the core only
grows each live creature's dirty mask in the bitwise-OR order (a slot
refilled by a spawn carries the full mask), `creature_spawn` sets the
new creature's mask to CREATURE_DIRTY_ALL, and only
`creature_to_network` clears bits: it removes exactly the flushed bits,
and a flush of ALL resets the mask to CREATURE_DIRTY_NONE. -/
theorem C2_dirty_mask_lifecycle (w : World) (hw : WorldInv w) (delta : Int)
    (i : Nat) (k : Option Nat) (x y t ct st : Int) (p ctype : Nat)
    (pts : Int) (msg : String) (c : Creature) (cl mask : Nat) :
    MaskGrow w (creature_moveall w delta) ∧
    MaskGrow w (creature_kill w i k) ∧
    MaskGrow w (creature_set_path w i x y).2 ∧
    MaskGrow w (creature_set_target w i t).2 ∧
    MaskGrow w (creature_set_state w i st).2 ∧
    MaskGrow w (creature_set_conversion_type w i ct).2 ∧
    MaskGrow w (creature_set_message w i msg) ∧
    (∀ j, (creature_spawn w p x y ctype pts).1 = some j →
      getCreature (creature_spawn w p x y ctype pts).2 j =
        some (newCreature p x y ctype pts)) ∧
    (newCreature p x y ctype pts).dirtymask = CREATURE_DIRTY_ALL ∧
    (creature_to_network c mask cl).1.dirtymask =
      c.dirtymask &&& maskCompl mask ∧
    (creature_to_network c CREATURE_DIRTY_ALL cl).1.dirtymask =
      CREATURE_DIRTY_NONE := by
  refine ⟨maskGrow_moveall hw delta, maskGrow_kill w i,
    maskGrow_set_path w i x y, maskGrow_set_target w i t,
    maskGrow_set_state w i st, maskGrow_set_conversion_type w i ct,
    maskGrow_set_message w i msg, ?_, rfl, rfl, ?_⟩
  · intro j hj
    unfold creature_spawn at hj ⊢
    cases hv : firstVacant w.slots with
    | none =>
      rw [hv] at hj
      exact Option.noConfusion hj
    | some v =>
      rw [hv] at hj
      dsimp only at hj ⊢
      injection hj with hj
      subst hj
      have hlen : v < w.slots.length := by
        rcases List.getElem?_eq_some_iff.mp (firstVacant_spec hv).1
          with ⟨hl, _⟩
        exact hl
      exact getCreature_put_self hlen _
  · show c.dirtymask &&& maskCompl CREATURE_DIRTY_ALL = CREATURE_DIRTY_NONE
    have h : maskCompl CREATURE_DIRTY_ALL = 0 := rfl
    rw [h, Nat.and_zero]
    rfl

/-- Witness for C2 at a concrete registry. -/
theorem C2_dirty_mask_lifecycle_witness :
    WorldInv sampleWorld ∧
    (MaskGrow sampleWorld (creature_moveall sampleWorld 2) ∧
     MaskGrow sampleWorld (creature_kill sampleWorld 0 none) ∧
     MaskGrow sampleWorld (creature_set_path sampleWorld 0 1 1).2 ∧
     MaskGrow sampleWorld (creature_set_target sampleWorld 0 0).2 ∧
     MaskGrow sampleWorld (creature_set_state sampleWorld 0 1).2 ∧
     MaskGrow sampleWorld (creature_set_conversion_type sampleWorld 0 1).2 ∧
     MaskGrow sampleWorld (creature_set_message sampleWorld 0 "hi") ∧
     (∀ j, (creature_spawn sampleWorld 2 1 1 1 50).1 = some j →
       getCreature (creature_spawn sampleWorld 2 1 1 1 50).2 j =
         some (newCreature 2 1 1 1 50)) ∧
     (newCreature 2 1 1 1 50).dirtymask = CREATURE_DIRTY_ALL ∧
     (creature_to_network sampleCreature 3 7).1.dirtymask =
       sampleCreature.dirtymask &&& maskCompl 3 ∧
     (creature_to_network sampleCreature CREATURE_DIRTY_ALL 7).1.dirtymask =
       CREATURE_DIRTY_NONE) :=
  ⟨by decide,
   C2_dirty_mask_lifecycle sampleWorld (by decide) 2 0 none 1 1 0 1 1 2 1 50
     "hi" sampleCreature 7 3⟩

/-! ## Claim C5: noninterference lemmas -/

theorem slotPred_put_other {G : Creature → Prop} {w : World} {j a : Nat}
    {c' : Creature} (hja : j ≠ a)
    (h : ∀ c, getCreature w a = some c → G c) :
    ∀ c, getCreature (putCreature w j c') a = some c → G c := by
  intro c hc
  rw [getCreature_put_other hja] at hc
  exact h c hc

theorem slotPred_put_target {G : Creature → Prop} {w : World} {tj a : Nat}
    {t t1 : Creature} (hgt : getCreature w tj = some t)
    (hder : G t → G t1)
    (h : ∀ c, getCreature w a = some c → G c) :
    ∀ c, getCreature (putCreature w tj t1) a = some c → G c := by
  intro c hc
  by_cases htj : tj = a
  · subst htj
    have hlen : tj < w.slots.length := by
      rcases List.getElem?_eq_some_iff.mp (getCreature_eq_some_iff.mp hgt)
        with ⟨hl, _⟩
      exact hl
    rw [getCreature_put_self hlen] at hc
    injection hc with hc
    subst hc
    exact hder (h t hgt)
  · rw [getCreature_put_other htj] at hc
    exact h c hc

theorem slotPred_kill {G : Creature → Prop}
    (hG3 : ∀ c, G c → G (clearTarget c)) {w : World} {b a : Nat}
    (h : ∀ c, getCreature w a = some c → G c) :
    ∀ c, getCreature (killCreature w b) a = some c → G c := by
  intro c hc
  by_cases hb : b = a
  · subst hb
    rw [getCreature_kill_self] at hc
    exact Option.noConfusion hc
  · rw [getCreature_kill_other hb] at hc
    cases hga : getCreature w a with
    | none =>
      rw [hga] at hc
      exact Option.noConfusion hc
    | some c0 =>
      rw [hga] at hc
      simp only [Option.map_some'] at hc
      injection hc with hc
      subst hc
      by_cases ht : c0.target = (b : Int)
      · rw [if_pos ht]
        exact hG3 c0 (h c0 hga)
      · rw [if_neg ht]
        exact h c0 hga

theorem slotPred_spawn {G : Creature → Prop}
    (hG4 : ∀ (p : Nat) (x y : Int) (ct : Nat) (pts : Int),
      G (newCreature p x y ct pts))
    {w : World} {a : Nat} (p : Nat) (x y : Int) (ct : Nat) (pts : Int)
    (h : ∀ c, getCreature w a = some c → G c) :
    ∀ c, getCreature (creature_spawn w p x y ct pts).2 a = some c → G c := by
  unfold creature_spawn
  split
  · exact h
  · rename_i v hv
    intro c hc
    by_cases hva : v = a
    · subst hva
      have hlen : v < w.slots.length := by
        rcases List.getElem?_eq_some_iff.mp (firstVacant_spec hv).1
          with ⟨hl, _⟩
        exact hl
      rw [getCreature_put_self hlen] at hc
      injection hc with hc
      subst hc
      exact hG4 p x y ct pts
    · rw [getCreature_put_other hva] at hc
      exact h c hc

theorem slotPred_step {G : Creature → Prop}
    (hG1 : ∀ c v, G c → G (setHealth c v))
    (hG2 : ∀ c v, G c → G (setFood c v))
    (hG3 : ∀ c, G c → G (clearTarget c))
    (hG4 : ∀ (p : Nat) (x y : Int) (ct : Nat) (pts : Int),
      G (newCreature p x y ct pts))
    {w : World} {delta : Int} {j a : Nat} (hja : j ≠ a)
    (h : ∀ c, getCreature w a = some c → G c) :
    ∀ c, getCreature (stepCreature w delta j) a = some c → G c := by
  unfold stepCreature
  split
  · exact h
  · rename_i c0 hg0
    split
    · exact slotPred_put_other hja h
    · exact slotPred_put_other hja h
    · exact slotPred_put_other hja h
    · exact slotPred_put_other hja h
    · unfold attackStep
      split
      · exact slotPred_put_other hja h
      · rename_i pr tj t htc
        have hgt : getCreature w tj = some t := (getTargetCreature_some htc).1
        split
        · exact slotPred_put_other hja h
        · dsimp only
          split
          · split
            · rename_i c2 hc2
              exact slotPred_put_other hja
                (slotPred_kill hG3
                  (slotPred_put_target hgt (hG1 t _) h))
            · exact slotPred_kill hG3
                (slotPred_put_target hgt (hG1 t _) h)
          · exact slotPred_put_other hja
              (slotPred_put_target hgt (hG1 t _) h)
    · exact slotPred_put_other hja h
    · unfold spawnStepW
      split
      · exact slotPred_put_other hja h
      · dsimp only
        split
        · exact slotPred_spawn hG4 _ _ _ _ _ (slotPred_put_other hja h)
        · exact slotPred_put_other hja h
    · unfold feedStep
      split
      · exact slotPred_put_other hja h
      · rename_i pr tj t htc
        have hgt : getCreature w tj = some t := (getTargetCreature_some htc).1
        split
        · exact slotPred_put_other hja h
        · split
          · exact slotPred_put_other hja h
          · dsimp only
            exact slotPred_put_other hja
              (slotPred_put_target hgt (hG2 t _) h)

theorem targetValid_neg_one (w : World) : targetValid w (-1) = false := rfl

theorem getTargetCreature_neg_one (w : World) :
    getTargetCreature w (-1) = none := rfl

theorem spawn_preserves_occupied {w : World} {a : Nat} {X : Creature}
    (hg : getCreature w a = some X) (p : Nat) (x y : Int) (ct : Nat)
    (pts : Int) :
    getCreature (creature_spawn w p x y ct pts).2 a = some X := by
  unfold creature_spawn
  split
  · exact hg
  · rename_i v hv
    have hva : v ≠ a := by
      intro he
      subst he
      have h1 := (firstVacant_spec hv).1
      unfold getCreature at hg
      rw [h1] at hg
      simp at hg
    rw [getCreature_put_other hva]
    exact hg

theorem idleStep_keep {w : World} {c : Creature} (delta : Int)
    (ht : c.target = -1) (hs : c.state ≠ .ATTACK) :
    (idleStep w c delta).target = -1 ∧
    (idleStep w c delta).state ≠ .ATTACK := by
  unfold idleStep
  dsimp only
  split
  · exact ⟨by rw [setState_target]; exact ht, by rw [setState_state]; decide⟩
  · split
    · exact ⟨by rw [setState_target, setFood_target]; exact ht,
        by rw [setState_state]; decide⟩
    · exact ⟨by rw [setFood_target]; exact ht,
        by rw [setFood_state]; exact hs⟩

theorem walkStep_keep {w : World} {c : Creature} (delta : Int)
    (ht : c.target = -1) (hs : c.state ≠ .ATTACK) :
    (walkStep w c delta).target = -1 ∧
    (walkStep w c delta).state ≠ .ATTACK := by
  unfold walkStep
  rw [ht, getTargetCreature_neg_one]
  split
  · exact ⟨by rw [setState_target]; exact ht,
      by rw [setState_state]; decide⟩
  · rename_i l0 px py rest heq
    constructor
    · show (setPos c px py).target = -1
      rw [setPos_target]
      exact ht
    · show (setPos c px py).state ≠ .ATTACK
      rw [setPos_state]
      exact hs

theorem healStep_keep {c : Creature} (delta : Int)
    (ht : c.target = -1) (hs : c.state ≠ .ATTACK) :
    (healStep c delta).target = -1 ∧ (healStep c delta).state ≠ .ATTACK := by
  unfold healStep
  split
  · exact ⟨by rw [setState_target]; exact ht, by rw [setState_state]; decide⟩
  · split
    · exact ⟨by rw [setState_target]; exact ht,
        by rw [setState_state]; decide⟩
    · exact ⟨by rw [setFood_target, setHealth_target]; exact ht,
        by rw [setFood_state, setHealth_state]; exact hs⟩

theorem eatStep_keep {c : Creature} (delta : Int)
    (ht : c.target = -1) (hs : c.state ≠ .ATTACK) :
    (eatStep c delta).target = -1 ∧ (eatStep c delta).state ≠ .ATTACK := by
  unfold eatStep
  dsimp only
  split
  · exact ⟨by rw [setState_target]; exact ht, by rw [setState_state]; decide⟩
  · exact ⟨by rw [setFood_target]; exact ht, by rw [setFood_state]; exact hs⟩

theorem setType_target (c : Creature) (t : Nat) :
    (setType c t).target = c.target := rfl

theorem setType_state (c : Creature) (t : Nat) :
    (setType c t).state = c.state := rfl

theorem convertStep_keep {c : Creature} (delta : Int)
    (ht : c.target = -1) (hs : c.state ≠ .ATTACK) :
    (convertStep c delta).target = -1 ∧
    (convertStep c delta).state ≠ .ATTACK := by
  unfold convertStep
  dsimp only
  split
  · exact ⟨by rw [setState_target]; exact ht, by rw [setState_state]; decide⟩
  · split
    · exact ⟨by rw [setState_target, setFood_target, setType_target]; exact ht,
        by rw [setState_state]; decide⟩
    · exact ⟨ht, hs⟩

theorem step_at_self_no_attack {w : World} {delta : Int} {a : Nat}
    (hP : ∀ c, getCreature w a = some c → c.target = -1) :
    ∀ c', getCreature (stepCreature w delta a) a = some c' →
      c'.target = -1 ∧ c'.state ≠ .ATTACK := by
  unfold stepCreature
  split
  · rename_i hg0
    intro c' hc'
    rw [hg0] at hc'
    exact Option.noConfusion hc'
  · rename_i c0 hg0
    have htar : c0.target = -1 := hP c0 hg0
    have hlen : a < w.slots.length := by
      rcases List.getElem?_eq_some_iff.mp (getCreature_eq_some_iff.mp hg0)
        with ⟨hl, _⟩
      exact hl
    have hput : ∀ X : Creature,
        getCreature (putCreature w a X) a = some X :=
      fun X => getCreature_put_self hlen X
    split
    · rename_i heq
      intro c' hc'
      rw [hput] at hc'
      injection hc' with hc'
      subst hc'
      exact idleStep_keep delta htar (by rw [heq]; decide)
    · rename_i heq
      intro c' hc'
      rw [hput] at hc'
      injection hc' with hc'
      subst hc'
      exact walkStep_keep delta htar (by rw [heq]; decide)
    · rename_i heq
      intro c' hc'
      rw [hput] at hc'
      injection hc' with hc'
      subst hc'
      exact healStep_keep delta htar (by rw [heq]; decide)
    · rename_i heq
      intro c' hc'
      rw [hput] at hc'
      injection hc' with hc'
      subst hc'
      exact eatStep_keep delta htar (by rw [heq]; decide)
    · have hred : attackStep w a c0 delta =
          putCreature w a (setState (clearTarget c0) .IDLE) := by
        unfold attackStep
        rw [htar, getTargetCreature_neg_one]
      rw [hred]
      intro c' hc'
      rw [hput] at hc'
      injection hc' with hc'
      subst hc'
      constructor
      · rw [setState_target]
        rfl
      · rw [setState_state]
        decide
    · rename_i heq
      intro c' hc'
      rw [hput] at hc'
      injection hc' with hc'
      subst hc'
      exact convertStep_keep delta htar (by rw [heq]; decide)
    · rename_i heq
      unfold spawnStepW
      split
      · intro c' hc'
        rw [hput] at hc'
        injection hc' with hc'
        subst hc'
        constructor
        · rw [setState_target]
          exact htar
        · rw [setState_state]
          decide
      · dsimp only
        split
        · intro c' hc'
          have hkeep := spawn_preserves_occupied
            (hput (setState (setFood
              { c0 with age_action_deltas := c0.age_action_deltas + delta }
              ({ c0 with age_action_deltas := c0.age_action_deltas + delta }.food -
               { c0 with age_action_deltas := c0.age_action_deltas + delta }.spawn_food))
              CState.IDLE))
            c0.player (c0.x + 1) c0.y c0.type 0
          rw [hkeep] at hc'
          injection hc' with hc'
          subst hc'
          constructor
          · rw [setState_target, setFood_target]
            exact htar
          · rw [setState_state]
            decide
        · intro c' hc'
          rw [hput] at hc'
          injection hc' with hc'
          subst hc'
          constructor
          · exact htar
          · show c0.state ≠ CState.ATTACK
            rw [heq]
            decide
    · rename_i heq
      have hred : feedStep w a c0 delta =
          putCreature w a (setState (clearTarget c0) .IDLE) := by
        unfold feedStep
        rw [htar, getTargetCreature_neg_one]
      rw [hred]
      intro c' hc'
      rw [hput] at hc'
      injection hc' with hc'
      subst hc'
      constructor
      · rw [setState_target]
        rfl
      · rw [setState_state]
        decide

theorem foldl_inv_mem {α : Type} {P : World → Prop} {f : World → α → World} :
    ∀ (l : List α) (w : World),
      (∀ w' a, a ∈ l → P w' → P (f w' a)) → P w → P (l.foldl f w)
  | [], _, _, h => h
  | a :: l, w, hf, h =>
    foldl_inv_mem l (f w a)
      (fun w' b hb => hf w' b (List.mem_cons_of_mem a hb))
      (hf w a (List.mem_cons_self ..) h)

theorem range_split {a n : Nat} (h : a < n) :
    List.range n = List.range' 0 a ++ a :: List.range' (a + 1) (n - a - 1) := by
  rw [List.range_eq_range']
  have h1 := List.range'_append_1 0 a (n - a)
  rw [Nat.zero_add] at h1
  have h2 : n - a + a = n := by omega
  rw [h2] at h1
  rw [← h1]
  have h3 : n - a = (n - a - 1) + 1 := by omega
  nth_rewrite 1 [h3]
  rw [List.range'_succ]

/-- C5: killing the creature that an attacker's ATTACK targets clears
the attacker's target reference at once (it reads as the −1 sentinel and
fails the liveness check), and one `creature_moveall` tick later the
attacker is no longer in the ATTACK state. -/
theorem C5_kill_invalidates_attacker (w : World) (a b : Nat)
    (A B : Creature) (delta : Int)
    (hA : getCreature w a = some A) (_hB : getCreature w b = some B)
    (_hstate : A.state = .ATTACK) (htarget : A.target = (b : Int))
    (hab : a ≠ b) :
    getCreature (creature_kill w b (some a)) b = none ∧
    getCreature (creature_kill w b (some a)) a = some (clearTarget A) ∧
    (clearTarget A).target = -1 ∧
    targetValid (creature_kill w b (some a))
      (clearTarget A).target = false ∧
    (∀ c', getCreature
        (creature_moveall (creature_kill w b (some a)) delta) a = some c' →
      c'.state ≠ .ATTACK) := by
  have hka : getCreature (creature_kill w b (some a)) a =
      some (clearTarget A) := by
    show getCreature (killCreature w b) a = _
    rw [getCreature_kill_other (Ne.symm hab), hA]
    simp only [Option.map_some']
    rw [if_pos htarget]
  refine ⟨getCreature_kill_self, hka, rfl, targetValid_neg_one _, ?_⟩
  have ha_len : a < (creature_kill w b (some a)).slots.length := by
    rcases List.getElem?_eq_some_iff.mp (getCreature_eq_some_iff.mp hka)
      with ⟨hl, _⟩
    exact hl
  have hP1 : ∀ c, getCreature (creature_kill w b (some a)) a = some c →
      c.target = -1 := by
    intro c hc
    rw [hka] at hc
    injection hc with hc
    subst hc
    rfl
  have hPstep : ∀ (w' : World) (j : Nat), j ≠ a →
      (∀ c, getCreature w' a = some c → c.target = -1) →
      ∀ c, getCreature (stepCreature w' delta j) a = some c →
        c.target = -1 := by
    intro w' j hj hp
    exact slotPred_step (G := fun c => c.target = -1)
      (fun c v hc => by
        show (setHealth c v).target = -1
        rw [setHealth_target]
        exact hc)
      (fun c v hc => by
        show (setFood c v).target = -1
        rw [setFood_target]
        exact hc)
      (fun c _ => rfl)
      (fun p x y ct pts => rfl)
      hj hp
  have hQstep : ∀ (w' : World) (j : Nat), j ≠ a →
      (∀ c, getCreature w' a = some c →
        c.target = -1 ∧ c.state ≠ CState.ATTACK) →
      ∀ c, getCreature (stepCreature w' delta j) a = some c →
        c.target = -1 ∧ c.state ≠ CState.ATTACK := by
    intro w' j hj hq
    exact slotPred_step
      (G := fun c => c.target = -1 ∧ c.state ≠ CState.ATTACK)
      (fun c v hc => ⟨by
          show (setHealth c v).target = -1
          rw [setHealth_target]
          exact hc.1,
        by
          show (setHealth c v).state ≠ CState.ATTACK
          rw [setHealth_state]
          exact hc.2⟩)
      (fun c v hc => ⟨by
          show (setFood c v).target = -1
          rw [setFood_target]
          exact hc.1,
        by
          show (setFood c v).state ≠ CState.ATTACK
          rw [setFood_state]
          exact hc.2⟩)
      (fun c hc => ⟨rfl, by show c.state ≠ CState.ATTACK; exact hc.2⟩)
      (fun p x y ct pts => ⟨rfl,
        by show CState.IDLE ≠ CState.ATTACK; decide⟩)
      hj hq
  intro c' hc'
  unfold creature_moveall at hc'
  rw [range_split ha_len, List.foldl_append, List.foldl_cons] at hc'
  have hPmid : ∀ c, getCreature
      ((List.range' 0 a).foldl (fun acc i => stepCreature acc delta i)
        (creature_kill w b (some a))) a = some c → c.target = -1 := by
    refine foldl_inv_mem
      (P := fun w' => ∀ c, getCreature w' a = some c → c.target = -1)
      (f := fun acc i => stepCreature acc delta i)
      (List.range' 0 a) _ ?_ hP1
    intro w' j hj hp
    have hja : j ≠ a := by
      have := List.mem_range'_1.mp hj
      omega
    exact hPstep w' j hja hp
  have hQmid : ∀ c, getCreature
      (stepCreature
        ((List.range' 0 a).foldl (fun acc i => stepCreature acc delta i)
          (creature_kill w b (some a))) delta a) a = some c →
      c.target = -1 ∧ c.state ≠ CState.ATTACK :=
    step_at_self_no_attack hPmid
  have hQfin : ∀ c, getCreature
      ((List.range' (a + 1)
          ((creature_kill w b (some a)).slots.length - a - 1)).foldl
        (fun acc i => stepCreature acc delta i)
        (stepCreature
          ((List.range' 0 a).foldl (fun acc i => stepCreature acc delta i)
            (creature_kill w b (some a))) delta a)) a = some c →
      c.target = -1 ∧ c.state ≠ CState.ATTACK := by
    refine foldl_inv_mem
      (P := fun w' => ∀ c, getCreature w' a = some c →
        c.target = -1 ∧ c.state ≠ CState.ATTACK)
      (f := fun acc i => stepCreature acc delta i)
      _ _ ?_ hQmid
    intro w' j hj hq
    have hja : j ≠ a := by
      have := List.mem_range'_1.mp hj
      omega
    exact hQstep w' j hja hq
  exact (hQfin c' hc').2

/-- Witness for C5: a two-creature registry where slot 0 attacks slot 1;
after the kill the attacker's target is cleared and one tick later it
is out of ATTACK. -/
theorem C5_kill_invalidates_attacker_witness :
    getCreature attackWorld 0 = some attackerC ∧
    getCreature attackWorld 1 = some victimC ∧
    attackerC.state = .ATTACK ∧
    attackerC.target = (1 : Int) ∧
    (getCreature (creature_kill attackWorld 1 (some 0)) 1 = none ∧
     getCreature (creature_kill attackWorld 1 (some 0)) 0 =
       some (clearTarget attackerC) ∧
     (clearTarget attackerC).target = -1 ∧
     targetValid (creature_kill attackWorld 1 (some 0))
       (clearTarget attackerC).target = false ∧
     (∀ c', getCreature
         (creature_moveall (creature_kill attackWorld 1 (some 0)) 4) 0 =
           some c' →
       c'.state ≠ .ATTACK)) :=
  ⟨by decide, by decide, by decide, by decide,
   C5_kill_invalidates_attacker attackWorld 0 1 attackerC victimC 4
     (by decide) (by decide) (by decide) (by decide) (by decide)⟩
